import Mathlib

/-!
# GridFluidSim3D: dense grid container (`array3d.h`) and simulation constants

A shallow embedding of `Array3d<T>`, `GridIndex`, of the constants, cell and
face predicates and coefficient storage declared in `fluidsimulation.h`, of the
hat kernel of `sparseimplicitsurfacescalarfield.h`, and of the `log` overloads
of `logfile.cpp`.

Conventions of the embedding
* `int` values are mathematical integers; a signed product that leaves
  `[INT_MIN, INT_MAX]` has no defined value and is modelled as `none`.
* `unsigned int` arithmetic is arithmetic modulo `2^32`.
* A failed `assert` is the fault `Fault.assertion`; an access through `_grid`
  beyond the allocated buffer is the fault `Fault.outOfBuffer`.
* Every member function maps the object state to an outcome paired with the
  object state at the moment the call returns or aborts.
-/

namespace GridFluidSim3D

/-! ## Machine integers -/

def INT_MIN : Int := -2147483648
def INT_MAX : Int := 2147483647
def UINT_MODULUS : Nat := 4294967296

/-- The conversion `(unsigned int)x` of an `int`. -/
def toUnsigned (x : Int) : Nat := (x % (UINT_MODULUS : Int)).toNat

/-- Addition of two `unsigned int`. -/
def uadd (a b : Nat) : Nat := (a + b) % UINT_MODULUS

/-- Multiplication of two `unsigned int`. -/
def umul (a b : Nat) : Nat := (a * b) % UINT_MODULUS

/-- Multiplication of two `int`; undefined (`none`) on signed overflow. -/
def imul (a b : Int) : Option Int :=
  if INT_MIN ≤ a * b ∧ a * b ≤ INT_MAX then some (a * b) else none

/-! ## Faults and outcomes -/

inductive Fault where
  | assertion
  | outOfBuffer
  | badArrayLength
  | signedOverflow
  deriving DecidableEq, Repr

/-! ## GridIndex -/

structure GridIndex where
  i : Int
  j : Int
  k : Int
  deriving Repr

/-- The constructor `GridIndex()`. -/
def GridIndex.default : GridIndex := ⟨0, 0, 0⟩

/-- The constructor `GridIndex(int ii, int jj, int kk)`. -/
def GridIndex.new (ii jj kk : Int) : GridIndex := ⟨ii, jj, kk⟩

/-- The member `bool operator==(const GridIndex &other) const`. -/
def GridIndex.operatorEq (g other : GridIndex) : Bool :=
  g.i == other.i && g.j == other.j && g.k == other.k

/-! ## Counted loops -/

/-- The loop `for (int idx = start; idx < start + count; idx++) body(idx)`,
whose bound is an expression the body never writes: `count` iterations, the
first fault ends the run. -/
def forRange {σ : Type} (body : Nat → σ → Except Fault Unit × σ) :
    Nat → Nat → σ → Except Fault Unit × σ
  | 0, _, s => (.ok (), s)
  | count + 1, idx, s =>
    match body idx s with
    | (.ok _, s1) => forRange body count (idx + 1) s1
    | (.error e, s1) => (.error e, s1)

/-! ## Array3d -/

/-- The state of an `Array3d<T>` object; `_grid` holds the contents of the
buffer the object owns. -/
structure Array3d (T : Type) where
  width : Int
  height : Int
  depth : Int
  _grid : List T
  _isOutOfRangeValueSet : Bool
  _outOfRangeValue : T

/-- The target of a pointer returned by `getPointer`. -/
inductive CellPtr where
  | outOfRangeValue
  | gridCell (offset : Nat)
  deriving DecidableEq, Repr

namespace Array3d

variable {T : Type}

/-- The expression `width*height*depth`, evaluated left to right in `int`. -/
def numElements (width height depth : Int) : Option Int :=
  (imul width height).bind (fun wh => imul wh depth)

/-- The member `_initializeGrid`: `_grid = new T[width*height*depth]`. The fresh buffer
holds whatever the allocator returns, given by `mem`. -/
def _initializeGrid (mem : Nat → T) (g : Array3d T) : Except Fault Unit × Array3d T :=
  match numElements g.width g.height g.depth with
  | none => (.error .signedOverflow, g)
  | some n =>
    if n < 0 then (.error .badArrayLength, g)
    else (.ok (), { g with _grid := (List.range n.toNat).map mem })

def _isIndexInRange (g : Array3d T) (i j k : Int) : Bool :=
  decide (i ≥ 0) && decide (j ≥ 0) && decide (k ≥ 0) &&
    decide (i < g.width) && decide (j < g.height) && decide (k < g.depth)

def _getFlatIndex (g : Array3d T) (i j k : Int) : Nat :=
  uadd (toUnsigned i)
    (umul (toUnsigned g.width)
      (uadd (toUnsigned j) (umul (toUnsigned g.height) (toUnsigned k))))

def _getFlatIndexG (g : Array3d T) (x : GridIndex) : Nat :=
  uadd (toUnsigned x.i)
    (umul (toUnsigned g.width)
      (uadd (toUnsigned x.j) (umul (toUnsigned g.height) (toUnsigned x.k))))

/-- The read `T operator()(int i, int j, int k)`. -/
def operatorCall (g : Array3d T) (i j k : Int) : Except Fault T × Array3d T :=
  let isInRange := g._isIndexInRange i j k
  if !isInRange && g._isOutOfRangeValueSet then (.ok g._outOfRangeValue, g)
  else if !isInRange then (.error .assertion, g)
  else
    match g._grid[g._getFlatIndex i j k]? with
    | some v => (.ok v, g)
    | none => (.error .outOfBuffer, g)

/-- The read `T operator()(GridIndex g)`. -/
def operatorCallG (g : Array3d T) (x : GridIndex) : Except Fault T × Array3d T :=
  let isInRange := g._isIndexInRange x.i x.j x.k
  if !isInRange && g._isOutOfRangeValueSet then (.ok g._outOfRangeValue, g)
  else if !isInRange then (.error .assertion, g)
  else
    match g._grid[g._getFlatIndexG x]? with
    | some v => (.ok v, g)
    | none => (.error .outOfBuffer, g)

/-- The write `void set(int i, int j, int k, T value)`. -/
def set (g : Array3d T) (i j k : Int) (value : T) : Except Fault Unit × Array3d T :=
  if !g._isIndexInRange i j k then (.error .assertion, g)
  else if g._getFlatIndex i j k < g._grid.length then
    (.ok (), { g with _grid := g._grid.set (g._getFlatIndex i j k) value })
  else (.error .outOfBuffer, g)

/-- The write `void set(GridIndex g, T value)`. -/
def setG (g : Array3d T) (x : GridIndex) (value : T) : Except Fault Unit × Array3d T :=
  if !g._isIndexInRange x.i x.j x.k then (.error .assertion, g)
  else if g._getFlatIndexG x < g._grid.length then
    (.ok (), { g with _grid := g._grid.set (g._getFlatIndexG x) value })
  else (.error .outOfBuffer, g)

/-- The write `void set(std::vector<GridIndex> cells, T value)`. -/
def setCells (g : Array3d T) (cells : List GridIndex) (value : T) :
    Except Fault Unit × Array3d T :=
  forRange (fun i g1 =>
      match cells[i]? with
      | some c => g1.setG c value
      | none => (.error .outOfBuffer, g1))
    cells.length 0 g

/-- The update `void add(int i, int j, int k, T value)`. -/
def add [Add T] (g : Array3d T) (i j k : Int) (value : T) : Except Fault Unit × Array3d T :=
  if !g._isIndexInRange i j k then (.error .assertion, g)
  else
    match g._grid[g._getFlatIndex i j k]? with
    | some old =>
      (.ok (), { g with _grid := g._grid.set (g._getFlatIndex i j k) (old + value) })
    | none => (.error .outOfBuffer, g)

/-- The update `void add(GridIndex g, T value)`. -/
def addG [Add T] (g : Array3d T) (x : GridIndex) (value : T) : Except Fault Unit × Array3d T :=
  if !g._isIndexInRange x.i x.j x.k then (.error .assertion, g)
  else
    match g._grid[g._getFlatIndexG x]? with
    | some old =>
      (.ok (), { g with _grid := g._grid.set (g._getFlatIndexG x) (old + value) })
    | none => (.error .outOfBuffer, g)

/-- The accessor `T *getPointer(int i, int j, int k)`. -/
def getPointer (g : Array3d T) (i j k : Int) : Except Fault CellPtr × Array3d T :=
  let isInRange := g._isIndexInRange i j k
  if !isInRange && g._isOutOfRangeValueSet then (.ok .outOfRangeValue, g)
  else if !isInRange then (.error .assertion, g)
  else (.ok (.gridCell (g._getFlatIndex i j k)), g)

/-- The accessor `T *getPointer(GridIndex g)`. -/
def getPointerG (g : Array3d T) (x : GridIndex) : Except Fault CellPtr × Array3d T :=
  let isInRange := g._isIndexInRange x.i x.j x.k
  if !isInRange && g._isOutOfRangeValueSet then (.ok .outOfRangeValue, g)
  else if !isInRange then (.error .assertion, g)
  else (.ok (.gridCell (g._getFlatIndexG x)), g)

/-- The member `int getNumElements()`. -/
def getNumElements (g : Array3d T) : Except Fault Int × Array3d T :=
  match numElements g.width g.height g.depth with
  | some n => (.ok n, g)
  | none => (.error .signedOverflow, g)

/-- The member `void setOutOfRangeValue(T val)`. -/
def setOutOfRangeValue (g : Array3d T) (val : T) : Except Fault Unit × Array3d T :=
  (.ok (), { g with _outOfRangeValue := val, _isOutOfRangeValueSet := true })

def isOutOfRangeValueSet (g : Array3d T) : Bool × Array3d T :=
  (g._isOutOfRangeValueSet, g)

def getOutOfRangeValue (g : Array3d T) : T × Array3d T :=
  (g._outOfRangeValue, g)

/-- The public `bool isIndexInRange(int i, int j, int k)`. -/
def isIndexInRange (g : Array3d T) (i j k : Int) : Bool × Array3d T :=
  (decide (i ≥ 0) && decide (j ≥ 0) && decide (k ≥ 0) &&
    decide (i < g.width) && decide (j < g.height) && decide (k < g.depth), g)

/-- The public `bool isIndexInRange(GridIndex g)`. -/
def isIndexInRangeG (g : Array3d T) (x : GridIndex) : Bool × Array3d T :=
  (decide (x.i ≥ 0) && decide (x.j ≥ 0) && decide (x.k ≥ 0) &&
    decide (x.i < g.width) && decide (x.j < g.height) && decide (x.k < g.depth), g)

/-- The member `void setOutOfRangeValue()`. Its single statement assigns `false`
to `_isOutOfrangeValueSet`, a name the class does not declare (the flag is
spelled `_isOutOfRangeValueSet`): no declared member is written. -/
def setOutOfRangeValueNoArg (g : Array3d T) : Except Fault Unit × Array3d T :=
  (.ok (), g)

/-- One iteration `_grid[idx] = value` of `fill`. -/
def fillStep (value : T) (idx : Nat) (g : Array3d T) : Except Fault Unit × Array3d T :=
  if idx < g._grid.length then (.ok (), { g with _grid := g._grid.set idx value })
  else (.error .outOfBuffer, g)

/-- The member `void fill(T value)`. -/
def fill (g : Array3d T) (value : T) : Except Fault Unit × Array3d T :=
  match numElements g.width g.height g.depth with
  | none => (.error .signedOverflow, g)
  | some n => forRange (fillStep value) n.toNat 0 g

/-- The state of an object when a constructor body starts: the in-class
initialisers are applied, `_outOfRangeValue` holds an indeterminate `junk`
and no buffer is owned yet. -/
def fresh (junk : T) : Array3d T :=
  { width := 0, height := 0, depth := 0, _grid := [],
    _isOutOfRangeValueSet := false, _outOfRangeValue := junk }

/-- The constructor `Array3d(int i, int j, int k)`. -/
def new (mem : Nat → T) (junk : T) (i j k : Int) : Except Fault Unit × Array3d T :=
  _initializeGrid mem { fresh junk with width := i, height := j, depth := k }

/-- The statement `set(i, j, k, obj(i, j, k))` of the copy loops. -/
def copyCell (obj : Array3d T) (k j i : Nat) (g : Array3d T) : Except Fault Unit × Array3d T :=
  match obj.operatorCall i j k with
  | (.ok v, _) => g.set i j k v
  | (.error e, _) => (.error e, g)

/-- The three nested loops `for k < depth, for j < height, for i < width`
shared by the copy constructor and `operator=`. -/
def copyCells (obj : Array3d T) (g : Array3d T) : Except Fault Unit × Array3d T :=
  forRange (fun k g1 =>
    forRange (fun j g2 =>
      forRange (fun i g3 => copyCell obj k j i g3) g2.width.toNat 0 g2)
      g1.height.toNat 0 g1)
    g.depth.toNat 0 g

/-- The copy constructor `Array3d(Array3d &obj)`. -/
def copy (mem : Nat → T) (junk : T) (obj : Array3d T) : Except Fault Unit × Array3d T :=
  match _initializeGrid mem
      { fresh junk with width := obj.width, height := obj.height, depth := obj.depth } with
  | (.error e, g) => (.error e, g)
  | (.ok _, g1) =>
    match copyCells obj g1 with
    | (.error e, g) => (.error e, g)
    | (.ok _, g2) =>
      if obj.isOutOfRangeValueSet.1 then
        (.ok (), { g2 with _outOfRangeValue := obj.getOutOfRangeValue.1,
                           _isOutOfRangeValueSet := true })
      else (.ok (), g2)

/-- The constructor `Array3d(int i, int j, int k, T fillValue)`. -/
def newFill (mem : Nat → T) (junk : T) (i j k : Int) (fillValue : T) :
    Except Fault Unit × Array3d T :=
  match _initializeGrid mem { fresh junk with width := i, height := j, depth := k } with
  | (.error e, g) => (.error e, g)
  | (.ok _, g1) => g1.fill fillValue

/-- The member `Array3d operator=(Array3d & rhs)` called on `g`: the outcome is
the object returned by value (a copy of `*this`), the state is `*this` after the
assignment. `delete[] _grid` releases the old buffer before the new one is
obtained. -/
def assign (mem : Nat → T) (junk : T) (g rhs : Array3d T) :
    Except Fault (Array3d T) × Array3d T :=
  match _initializeGrid mem
      { g with _grid := [], width := rhs.width, height := rhs.height, depth := rhs.depth } with
  | (.error e, g1) => (.error e, g1)
  | (.ok _, g1) =>
    match copyCells rhs g1 with
    | (.error e, g2) => (.error e, g2)
    | (.ok _, g2) =>
      let g3 : Array3d T :=
        if rhs.isOutOfRangeValueSet.1 then
          { g2 with _outOfRangeValue := rhs.getOutOfRangeValue.1,
                    _isOutOfRangeValueSet := true }
        else g2
      match copy mem junk g3 with
      | (.ok _, result) => (.ok result, g3)
      | (.error e, _) => (.error e, g3)

/-- The representation invariant every constructor establishes: the product
`width*height*depth` is a defined `int` and the buffer has exactly that many
elements. -/
def Valid (g : Array3d T) : Prop :=
  numElements g.width g.height g.depth = some (g._grid.length : Int)

instance (g : Array3d T) : Decidable g.Valid := by
  unfold Valid
  infer_instance

/-- The state of the copy loops once the first `m` buffer offsets are done:
`g` has the shape of `obj`, a buffer of the same length whose first `m`
elements are those of `obj`, and its sentinel members are still untouched. -/
def CopiedUpTo (obj : Array3d T) (junk : T) (m : Nat) (g : Array3d T) : Prop :=
  g.width = obj.width ∧ g.height = obj.height ∧ g.depth = obj.depth ∧
  g._grid.length = obj._grid.length ∧
  g._isOutOfRangeValueSet = false ∧ g._outOfRangeValue = junk ∧
  ∀ n, n < m → g._grid[n]? = obj._grid[n]?

/-- The grid `g1` has the dimensions of `g`. -/
def sameDims (g g1 : Array3d T) : Prop :=
  g1.width = g.width ∧ g1.height = g.height ∧ g1.depth = g.depth

/-- The index `(i,j,k)` lies in `[0,width) x [0,height) x [0,depth)`. -/
def InBounds (g : Array3d T) (i j k : Int) : Prop :=
  0 ≤ i ∧ i < g.width ∧ 0 ≤ j ∧ j < g.height ∧ 0 ≤ k ∧ k < g.depth

instance (g : Array3d T) (i j k : Int) : Decidable (g.InBounds i j k) := by
  unfold InBounds
  infer_instance

/-- A call of one of the member functions that write to an existing grid. -/
inductive Mutation (T : Type) where
  | set (i j k : Int) (value : T)
  | setG (g : GridIndex) (value : T)
  | setCells (cells : List GridIndex) (value : T)
  | add (i j k : Int) (value : T)
  | addG (g : GridIndex) (value : T)
  | fill (value : T)
  | setOutOfRangeValue (val : T)
  | setOutOfRangeValueNoArg

/-- The member function call `m` made on the grid `g`. -/
def Mutation.apply [Add T] (m : Mutation T) (g : Array3d T) : Except Fault Unit × Array3d T :=
  match m with
  | .set i j k value => g.set i j k value
  | .setG x value => g.setG x value
  | .setCells cells value => g.setCells cells value
  | .add i j k value => g.add i j k value
  | .addG x value => g.addG x value
  | .fill value => g.fill value
  | .setOutOfRangeValue val => g.setOutOfRangeValue val
  | .setOutOfRangeValueNoArg => g.setOutOfRangeValueNoArg

/-- The grid after the calls `ms` made one after the other, each on the state
the previous call left. -/
def applyAll [Add T] (ms : List (Mutation T)) (g : Array3d T) : Array3d T :=
  ms.foldl (fun s m => (m.apply s).2) g

end Array3d

/-! ## Objects and the free store

`Array3d<T>` keeps its elements behind the pointer `_grid`. To speak about two
objects and the buffers they own, an object is its fields with `_grid` an
address, and the free store maps addresses to buffers. -/

/-- An `Array3d<T>` object with `_grid` as an address into the free store. -/
structure Array3dObject (T : Type) where
  width : Int
  height : Int
  depth : Int
  _grid : Nat
  _isOutOfRangeValueSet : Bool
  _outOfRangeValue : T

/-- The buffers allocated by `new T[n]`, addressed by position. -/
abbrev FreeStore (T : Type) := List (List T)

namespace FreeStore

variable {T : Type}

/-- The object together with the buffer its `_grid` points to. -/
def load (store : FreeStore T) (o : Array3dObject T) : Option (Array3d T) :=
  match store[o._grid]? with
  | some buf =>
    some { width := o.width, height := o.height, depth := o.depth, _grid := buf,
           _isOutOfRangeValueSet := o._isOutOfRangeValueSet,
           _outOfRangeValue := o._outOfRangeValue }
  | none => none

/-- The fields of `g` placed in an object whose buffer lives at `addr`. -/
def objectAt (addr : Nat) (g : Array3d T) : Array3dObject T :=
  { width := g.width, height := g.height, depth := g.depth, _grid := addr,
    _isOutOfRangeValueSet := g._isOutOfRangeValueSet,
    _outOfRangeValue := g._outOfRangeValue }

/-- A member function called on the object `o`: it works on the buffer at
`o._grid` and leaves every other buffer of the store alone. -/
def call {α : Type} (op : Array3d T → Except Fault α × Array3d T)
    (store : FreeStore T) (o : Array3dObject T) :
    Except Fault α × FreeStore T × Array3dObject T :=
  match load store o with
  | none => (.error .outOfBuffer, store, o)
  | some g =>
    ((op g).1, store.set o._grid (op g).2._grid, objectAt o._grid (op g).2)

/-- The copy constructor `Array3d(Array3d &obj)` run against the free store:
`_initializeGrid` obtains a new buffer, at the first unused address. -/
def copyConstruct (mem : Nat → T) (junk : T) (store : FreeStore T) (obj : Array3dObject T) :
    Except Fault Unit × FreeStore T × Array3dObject T :=
  match load store obj with
  | none => (.error .outOfBuffer, store, obj)
  | some g =>
    match Array3d.copy mem junk g with
    | (.ok _, c) => (.ok (), store ++ [c._grid], objectAt store.length c)
    | (.error e, c) => (.error e, store, objectAt store.length c)

end FreeStore

/-! ## SparseImplicitSurfaceScalarField -/

/-- The integer members of `SparseImplicitSurfaceScalarField` with their
in-class initialisers (the floating-point members and the two sparse fields
are not represented). -/
structure SparseImplicitSurfaceScalarField where
  M_SOLID : Int := 2
  WEIGHT_TRICUBIC : Int := 0
  WEIGHT_TRILINEAR : Int := 1
  _weightType : Int := 0
  _isize : Int := 0
  _jsize : Int := 0
  _ksize : Int := 0
  deriving Repr

/-- The members as the in-class initialisers leave them. -/
def SparseImplicitSurfaceScalarField.initial : SparseImplicitSurfaceScalarField := {}

/-- The member `double _hatFunc(double r)`, over an ordered field `F` standing
for exact arithmetic. -/
def SparseImplicitSurfaceScalarField._hatFunc {F : Type} [LinearOrderedField F] (r : F) : F :=
  if r ≥ 0 ∧ r ≤ 1 then 1 - r
  else if r ≥ -1 ∧ r ≤ 0 then 1 + r
  else 0

/-! ## FluidSimulation: diffuse particles and type constants -/

/-- The three components of a `glm::vec3` over a scalar type `F`. -/
structure vec3 (F : Type) where
  x : F
  y : F
  z : F

structure DiffuseParticle (F : Type) where
  position : vec3 F
  velocity : vec3 F
  lifetime : F
  type : Int

/-- The constructor `DiffuseParticle()`. -/
def DiffuseParticle.default {F : Type} [OfScientific F] : DiffuseParticle F :=
  { position := ⟨0.0, 0.0, 0.0⟩, velocity := ⟨0.0, 0.0, 0.0⟩, lifetime := 0.0, type := -1 }

/-- The constructor `DiffuseParticle(glm::vec3 p, glm::vec3 v, float time)`. -/
def DiffuseParticle.new {F : Type} (p v : vec3 F) (time : F) : DiffuseParticle F :=
  { position := p, velocity := v, lifetime := time, type := -1 }

namespace FluidSimulation

def M_AIR : Int := 0
def M_FLUID : Int := 1
def M_SOLID : Int := 2
def T_INFLOW : Int := 0
def T_OUTFLOW : Int := 1
def DP_BUBBLE : Int := 0
def DP_FOAM : Int := 1
def DP_SPRAY : Int := 2

end FluidSimulation

/-- The members of `FluidSimulation` the cell and face predicates read. -/
structure FluidSimulation where
  _isize : Int
  _jsize : Int
  _ksize : Int
  _materialGrid : Array3d Int

namespace FluidSimulation

/-- The expression `grid(i, j, k) == value`. -/
def cellEquals (grid : Array3d Int) (i j k value : Int) : Except Fault Bool :=
  match (grid.operatorCall i j k).1 with
  | .ok a => .ok (a == value)
  | .error e => .error e

/-- The expression `grid(g) == value` for a `GridIndex g`. -/
def cellEqualsG (grid : Array3d Int) (x : GridIndex) (value : Int) : Except Fault Bool :=
  match (grid.operatorCallG x).1 with
  | .ok a => .ok (a == value)
  | .error e => .error e

/-- The expression `layerGrid(i, j, k) >= 1.0`; the conversion of the `int` cell
to `double` is exact. -/
def cellAtLeastOne (layerGrid : Array3d Int) (i j k : Int) : Except Fault Bool :=
  match (layerGrid.operatorCall i j k).1 with
  | .ok a => .ok (decide (a ≥ 1))
  | .error e => .error e

/-- The operator `||`: the right operand is evaluated only when the left one is
false. -/
def shortCircuitOr (a b : Except Fault Bool) : Except Fault Bool :=
  match a with
  | .ok true => .ok true
  | .ok false => b
  | .error e => .error e

def _isCellAir (sim : FluidSimulation) (i j k : Int) : Except Fault Bool :=
  cellEquals sim._materialGrid i j k M_AIR

def _isCellFluid (sim : FluidSimulation) (i j k : Int) : Except Fault Bool :=
  cellEquals sim._materialGrid i j k M_FLUID

def _isCellSolid (sim : FluidSimulation) (i j k : Int) : Except Fault Bool :=
  cellEquals sim._materialGrid i j k M_SOLID

def _isCellAirG (sim : FluidSimulation) (g : GridIndex) : Except Fault Bool :=
  cellEqualsG sim._materialGrid g M_AIR

def _isCellFluidG (sim : FluidSimulation) (g : GridIndex) : Except Fault Bool :=
  cellEqualsG sim._materialGrid g M_FLUID

def _isCellSolidG (sim : FluidSimulation) (g : GridIndex) : Except Fault Bool :=
  cellEqualsG sim._materialGrid g M_SOLID

def _isFaceBorderingGridValueU (i j k value : Int) (grid : Array3d Int) : Except Fault Bool :=
  if i = grid.width then cellEquals grid (i - 1) j k value
  else if i > 0 then
    shortCircuitOr (cellEquals grid i j k value) (cellEquals grid (i - 1) j k value)
  else cellEquals grid i j k value

def _isFaceBorderingGridValueV (i j k value : Int) (grid : Array3d Int) : Except Fault Bool :=
  if j = grid.height then cellEquals grid i (j - 1) k value
  else if j > 0 then
    shortCircuitOr (cellEquals grid i j k value) (cellEquals grid i (j - 1) k value)
  else cellEquals grid i j k value

def _isFaceBorderingGridValueW (i j k value : Int) (grid : Array3d Int) : Except Fault Bool :=
  if k = grid.depth then cellEquals grid i j (k - 1) value
  else if k > 0 then
    shortCircuitOr (cellEquals grid i j k value) (cellEquals grid i j (k - 1) value)
  else cellEquals grid i j k value

def _isFaceBorderingLayerIndexU (i j k layer : Int) (layerGrid : Array3d Int) :
    Except Fault Bool :=
  _isFaceBorderingGridValueU i j k layer layerGrid

def _isFaceBorderingLayerIndexV (i j k layer : Int) (layerGrid : Array3d Int) :
    Except Fault Bool :=
  _isFaceBorderingGridValueV i j k layer layerGrid

def _isFaceBorderingLayerIndexW (i j k layer : Int) (layerGrid : Array3d Int) :
    Except Fault Bool :=
  _isFaceBorderingGridValueW i j k layer layerGrid

def _isFaceVelocityExtrapolatedU (sim : FluidSimulation) (i j k : Int)
    (layerGrid : Array3d Int) : Except Fault Bool :=
  if i = sim._isize then cellAtLeastOne layerGrid (i - 1) j k
  else if i > 0 then
    shortCircuitOr (cellAtLeastOne layerGrid i j k) (cellAtLeastOne layerGrid (i - 1) j k)
  else cellAtLeastOne layerGrid i j k

def _isFaceVelocityExtrapolatedV (sim : FluidSimulation) (i j k : Int)
    (layerGrid : Array3d Int) : Except Fault Bool :=
  if j = sim._jsize then cellAtLeastOne layerGrid i (j - 1) k
  else if j > 0 then
    shortCircuitOr (cellAtLeastOne layerGrid i j k) (cellAtLeastOne layerGrid i (j - 1) k)
  else cellAtLeastOne layerGrid i j k

def _isFaceVelocityExtrapolatedW (sim : FluidSimulation) (i j k : Int)
    (layerGrid : Array3d Int) : Except Fault Bool :=
  if k = sim._ksize then cellAtLeastOne layerGrid i j (k - 1)
  else if k > 0 then
    shortCircuitOr (cellAtLeastOne layerGrid i j k) (cellAtLeastOne layerGrid i j (k - 1))
  else cellAtLeastOne layerGrid i j k

/-- The face index `(i,j,k)` of the `u` component: `i` runs one past the cells. -/
def FaceU (grid : Array3d Int) (i j k : Int) : Prop :=
  0 ≤ i ∧ i ≤ grid.width ∧ 0 ≤ j ∧ j < grid.height ∧ 0 ≤ k ∧ k < grid.depth

/-- The face index `(i,j,k)` of the `v` component: `j` runs one past the cells. -/
def FaceV (grid : Array3d Int) (i j k : Int) : Prop :=
  0 ≤ i ∧ i < grid.width ∧ 0 ≤ j ∧ j ≤ grid.height ∧ 0 ≤ k ∧ k < grid.depth

/-- The face index `(i,j,k)` of the `w` component: `k` runs one past the cells. -/
def FaceW (grid : Array3d Int) (i j k : Int) : Prop :=
  0 ≤ i ∧ i < grid.width ∧ 0 ≤ j ∧ j < grid.height ∧ 0 ≤ k ∧ k ≤ grid.depth

instance (grid : Array3d Int) (i j k : Int) : Decidable (FaceU grid i j k) := by
  unfold FaceU
  infer_instance

instance (grid : Array3d Int) (i j k : Int) : Decidable (FaceV grid i j k) := by
  unfold FaceV
  infer_instance

instance (grid : Array3d Int) (i j k : Int) : Decidable (FaceW grid i j k) := by
  unfold FaceW
  infer_instance

/-- The cell `(i,j,k)` lies in the grid and stores `value`. -/
def Stores (grid : Array3d Int) (i j k value : Int) : Prop :=
  grid.InBounds i j k ∧ (grid.operatorCall i j k).1 = .ok value

end FluidSimulation

/-! ## FluidSimulation: storage of the pressure system -/

namespace FluidSimulation

/-- A member initialised as `member(Array3d<float>(i, j, k, 0.0f))`: the fill
constructor builds the temporary; the member is that very object when the copy
is elided and is copy-constructed from the temporary otherwise. -/
def fromTemporary {F : Type} (elide : Bool) (mem : Nat → F) (junk : F) (i j k : Int)
    (fillValue : F) : Except Fault (Array3d F) :=
  match Array3d.newFill mem junk i j k fillValue with
  | (.error e, _) => .error e
  | (.ok _, tmp) =>
    if elide then .ok tmp
    else
      match Array3d.copy mem junk tmp with
      | (.ok _, member) => .ok member
      | (.error e, _) => .error e

structure MatrixCoefficients (F : Type) where
  diag : Array3d F
  plusi : Array3d F
  plusj : Array3d F
  plusk : Array3d F
  width : Int
  height : Int
  depth : Int

/-- The constructor `MatrixCoefficients(int i, int j, int k)`; the members are
initialised in declaration order. -/
def MatrixCoefficients.new {F : Type} [Zero F] (elide : Bool) (mem : Nat → F) (junk : F)
    (i j k : Int) : Except Fault (MatrixCoefficients F) := do
  let diag ← fromTemporary elide mem junk i j k 0
  let plusi ← fromTemporary elide mem junk i j k 0
  let plusj ← fromTemporary elide mem junk i j k 0
  let plusk ← fromTemporary elide mem junk i j k 0
  pure { diag := diag, plusi := plusi, plusj := plusj, plusk := plusk,
         width := i, height := j, depth := k }

structure VectorCoefficients (F : Type) where
  vector : Array3d F
  width : Int
  height : Int
  depth : Int

/-- The constructor `VectorCoefficients(int i, int j, int k)`. -/
def VectorCoefficients.new {F : Type} [Zero F] (elide : Bool) (mem : Nat → F) (junk : F)
    (i j k : Int) : Except Fault (VectorCoefficients F) := do
  let vector ← fromTemporary elide mem junk i j k 0
  pure { vector := vector, width := i, height := j, depth := k }

/-- The grid `g` has dimensions `(i,j,k)` and reads `0` at every in-range cell. -/
def IsZeroGrid {F : Type} [Zero F] (i j k : Int) (g : Array3d F) : Prop :=
  g.width = i ∧ g.height = j ∧ g.depth = k ∧
  ∀ a b c : Int, 0 ≤ a → a < i → 0 ≤ b → b < j → 0 ≤ c → c < k →
    (g.operatorCall a b c).1 = .ok 0

end FluidSimulation

/-! ## LogFile -/

/-- The members of `LogFile`; `_stream` is the text held by the string stream
and `cout` the text this object has sent to `std::cout`. -/
structure LogFile where
  _path : String
  _filename : String
  _startTimeString : String
  _separator : String
  _stream : String
  _isWritingToConsole : Bool
  cout : String

namespace LogFile

/-- The member `void _print(std::string str)`. -/
def _print (l : LogFile) (str : String) : LogFile :=
  if l._isWritingToConsole then { l with cout := l.cout ++ str } else l

/-- The loop `for (int i = 0; i < indentLevel; i++) out << "\t"` on the local
stream `out`. -/
def indent (indentLevel : Int) (out : String) : String :=
  (forRange (fun _ (o : String) => (.ok (), o ++ "\t")) indentLevel.toNat 0 out).2

/-- The member `void log(std::string str, std::string value, int indentLevel)`. -/
def logValue (l : LogFile) (str value : String) (indentLevel : Int) : LogFile :=
  let out := indent indentLevel "" ++ str ++ value ++ "\n"
  _print { l with _stream := l._stream ++ out } out

set_option linter.unusedVariables false in
/-- The member `void log(std::string str, int indentLevel)`; its body does not
use `indentLevel`. -/
def log (l : LogFile) (str : String) (indentLevel : Int) : LogFile :=
  logValue l str "" 0

/-- The member `std::string getString()`. -/
def getString (l : LogFile) : String := l._stream

end LogFile

/-! ## Concrete grids used to exercise the statements -/

/-- A free store with a single buffer, owned by `sampleObject`. -/
def sampleStore : FreeStore Int := [[10, 11, 12, 13, 14, 15, 16, 17]]

/-- The `2 x 2 x 2` object whose buffer is at address `0` of `sampleStore`. -/
def sampleObject : Array3dObject Int :=
  { width := 2, height := 2, depth := 2, _grid := 0,
    _isOutOfRangeValueSet := false, _outOfRangeValue := 0 }


/-- A `2 x 2 x 2` grid of integers without sentinel. -/
def sampleGrid : Array3d Int :=
  { width := 2, height := 2, depth := 2, _grid := [10, 11, 12, 13, 14, 15, 16, 17],
    _isOutOfRangeValueSet := false, _outOfRangeValue := 0 }

/-- The same grid with the sentinel `-7` configured. -/
def sampleGridSentinel : Array3d Int :=
  { sampleGrid with _isOutOfRangeValueSet := true, _outOfRangeValue := -7 }

/-- A `2 x 2 x 2` layer grid without sentinel: layer `-1` marks unassigned
cells, layer `0` fluid cells. -/
def sampleLayerGrid : Array3d Int :=
  { width := 2, height := 2, depth := 2, _grid := [0, 1, -1, -1, 2, -1, -1, -1],
    _isOutOfRangeValueSet := false, _outOfRangeValue := 0 }

/-- A `2 x 2 x 2` simulation whose material grid holds the three material codes. -/
def sampleSimulation : FluidSimulation :=
  { _isize := 2, _jsize := 2, _ksize := 2,
    _materialGrid :=
      { width := 2, height := 2, depth := 2, _grid := [0, 1, 2, 0, 1, 2, 0, 1],
        _isOutOfRangeValueSet := false, _outOfRangeValue := 0 } }

/-- The object `Array3d<int>(2, 2, 2)` before `_initializeGrid` has run: the
dimensions are set and no buffer is owned. -/
def sampleUnallocated : Array3d Int :=
  { width := 2, height := 2, depth := 2, _grid := [],
    _isOutOfRangeValueSet := false, _outOfRangeValue := 0 }

/-- An empty log that echoes to the console. -/
def sampleLog : LogFile :=
  { _path := "logs", _filename := "run.txt", _startTimeString := "",
    _separator := "----", _stream := "", _isWritingToConsole := true, cout := "" }

/-! ## Machine arithmetic lemmas -/

theorem toUnsigned_natCast (a : Nat) (h : a < UINT_MODULUS) : toUnsigned (a : Int) = a := by
  unfold toUnsigned
  have h1 : ((a : Int) % (UINT_MODULUS : Int)) = a :=
    Int.emod_eq_of_lt (Int.natCast_nonneg a) (by exact_mod_cast h)
  rw [h1]
  exact Int.toNat_natCast a

theorem uadd_of_lt (a b : Nat) (h : a + b < UINT_MODULUS) : uadd a b = a + b := by
  unfold uadd
  exact Nat.mod_eq_of_lt h

theorem umul_of_lt (a b : Nat) (h : a * b < UINT_MODULUS) : umul a b = a * b := by
  unfold umul
  exact Nat.mod_eq_of_lt h

theorem imul_eq_some {a b n : Int} (h : imul a b = some n) :
    n = a * b ∧ INT_MIN ≤ a * b ∧ a * b ≤ INT_MAX := by
  unfold imul at h
  split at h
  · rename_i hr
    exact ⟨(Option.some.inj h).symm, hr.1, hr.2⟩
  · exact absurd h (by simp)

namespace Array3d

variable {T : Type}

theorem numElements_eq_some {w h d n : Int} (hn : numElements w h d = some n) :
    n = w * h * d ∧ w * h * d ≤ INT_MAX := by
  unfold numElements at hn
  cases hwh : imul w h with
  | none => rw [hwh] at hn; exact absurd hn (by simp)
  | some wh =>
    rw [hwh] at hn
    simp only [Option.bind] at hn
    obtain ⟨e1, _, _⟩ := imul_eq_some hwh
    obtain ⟨e2, _, h2⟩ := imul_eq_some hn
    subst e1
    exact ⟨e2, h2⟩

theorem isIndexInRange_iff (g : Array3d T) (i j k : Int) :
    g._isIndexInRange i j k = true ↔ g.InBounds i j k := by
  unfold _isIndexInRange InBounds
  simp only [Bool.and_eq_true, decide_eq_true_eq, ge_iff_le]
  tauto

theorem isIndexInRange_eq_false_iff (g : Array3d T) (i j k : Int) :
    g._isIndexInRange i j k = false ↔ ¬ g.InBounds i j k := by
  rw [← isIndexInRange_iff]
  cases g._isIndexInRange i j k <;> simp

/-- Pure bound: an in-range triple has row-major offset below the element count. -/
theorem offset_lt_of_lt {a b c W H D : Nat} (ha : a < W) (hb : b < H) (hc : c < D) :
    a + W * (b + H * c) < W * H * D := by
  have h1 : H * (c + 1) ≤ H * D := Nat.mul_le_mul_left H hc
  have h2 : b + H * c + 1 ≤ H * D := by
    have : H * (c + 1) = H * c + H := by ring
    omega
  have h3 : W * (b + H * c + 1) ≤ W * (H * D) := Nat.mul_le_mul_left W h2
  have h4 : W * (b + H * c + 1) = W * (b + H * c) + W := by ring
  have h5 : W * (H * D) = W * H * D := by ring
  omega

/-- On a valid grid the unsigned offset of an in-range index is the exact
row-major offset and addresses an element of the buffer. -/
theorem flatIndex_of_inBounds (g : Array3d T) (i j k : Int)
    (hv : g.Valid) (hb : g.InBounds i j k) :
    (g._getFlatIndex i j k : Int) = i + g.width * (j + g.height * k) ∧
      g._getFlatIndex i j k < g._grid.length ∧
      (g._grid.length : Int) = g.width * g.height * g.depth := by
  obtain ⟨hlen, hmax⟩ := numElements_eq_some hv
  obtain ⟨hi0, hiw, hj0, hjh, hk0, hkd⟩ := hb
  obtain ⟨W, hW⟩ : ∃ W : Nat, g.width = W :=
    ⟨g.width.toNat, (Int.toNat_of_nonneg (by omega)).symm⟩
  obtain ⟨H, hH⟩ : ∃ H : Nat, g.height = H :=
    ⟨g.height.toNat, (Int.toNat_of_nonneg (by omega)).symm⟩
  obtain ⟨D, hD⟩ : ∃ D : Nat, g.depth = D :=
    ⟨g.depth.toNat, (Int.toNat_of_nonneg (by omega)).symm⟩
  lift i to Nat using hi0
  lift j to Nat using hj0
  lift k to Nat using hk0
  rw [hW] at hiw
  rw [hH] at hjh
  rw [hD] at hkd
  have ha : i < W := by exact_mod_cast hiw
  have hb : j < H := by exact_mod_cast hjh
  have hc : k < D := by exact_mod_cast hkd
  have hlt : i + W * (j + H * k) < W * H * D := offset_lt_of_lt ha hb hc
  have hprod : W * H * D ≤ 2147483647 := by
    have : ((W * H * D : Nat) : Int) ≤ 2147483647 := by
      push_cast
      rw [← hW, ← hH, ← hD]
      exact hmax
    exact_mod_cast this
  have hHk : H * k ≤ i + W * (j + H * k) := by
    have : 1 * (j + H * k) ≤ W * (j + H * k) := Nat.mul_le_mul_right _ (by omega)
    omega
  have hjHk : j + H * k ≤ i + W * (j + H * k) := by
    have : 1 * (j + H * k) ≤ W * (j + H * k) := Nat.mul_le_mul_right _ (by omega)
    omega
  have hWH : W ≤ W * H * D := by
    have h1 : 1 ≤ H * D := Nat.mul_pos (by omega) (by omega)
    have h2 : W * 1 ≤ W * (H * D) := Nat.mul_le_mul_left W h1
    have h3 : W * (H * D) = W * H * D := by ring
    omega
  have hHD : H ≤ W * H * D := by
    have h1 : 1 ≤ W * D := Nat.mul_pos (by omega) (by omega)
    have h2 : H * 1 ≤ H * (W * D) := Nat.mul_le_mul_left H h1
    have h3 : H * (W * D) = W * H * D := by ring
    omega
  have hDle : D ≤ W * H * D := by
    have h1 : 1 ≤ W * H := Nat.mul_pos (by omega) (by omega)
    have h2 : 1 * D ≤ W * H * D := Nat.mul_le_mul_right D h1
    omega
  have hflat : g._getFlatIndex (i : Int) (j : Int) (k : Int) = i + W * (j + H * k) := by
    unfold _getFlatIndex
    rw [hW, hH]
    rw [toUnsigned_natCast i (by unfold UINT_MODULUS; omega),
      toUnsigned_natCast j (by unfold UINT_MODULUS; omega),
      toUnsigned_natCast k (by unfold UINT_MODULUS; omega),
      toUnsigned_natCast W (by unfold UINT_MODULUS; omega),
      toUnsigned_natCast H (by unfold UINT_MODULUS; omega)]
    rw [umul_of_lt H k (by unfold UINT_MODULUS; omega),
      uadd_of_lt j (H * k) (by unfold UINT_MODULUS; omega),
      umul_of_lt W (j + H * k) (by unfold UINT_MODULUS; omega),
      uadd_of_lt i (W * (j + H * k)) (by unfold UINT_MODULUS; omega)]
  have hlenN : g._grid.length = W * H * D := by
    have : (g._grid.length : Int) = ((W * H * D : Nat) : Int) := by
      push_cast
      rw [hlen, hW, hH, hD]
    exact_mod_cast this
  refine ⟨?_, ?_, ?_⟩
  · rw [hflat, hW, hH]
    push_cast
    ring
  · rw [hflat, hlenN]
    exact hlt
  · exact hlen

end Array3d

/-! ## Reads and writes of a single cell -/

namespace Array3d

variable {T : Type}

theorem set_of_inBounds (g : Array3d T) (i j k : Int) (v : T)
    (hv : g.Valid) (hb : g.InBounds i j k) :
    g.set i j k v = (.ok (), { g with _grid := g._grid.set (g._getFlatIndex i j k) v }) := by
  have hr := (isIndexInRange_iff g i j k).2 hb
  have hlt := (flatIndex_of_inBounds g i j k hv hb).2.1
  unfold set
  simp [hr, hlt]

theorem operatorCall_of_inBounds (g : Array3d T) (i j k : Int)
    (hv : g.Valid) (hb : g.InBounds i j k) :
    ∃ v, g._grid[g._getFlatIndex i j k]? = some v ∧ g.operatorCall i j k = (.ok v, g) := by
  have hr := (isIndexInRange_iff g i j k).2 hb
  have hlt := (flatIndex_of_inBounds g i j k hv hb).2.1
  refine ⟨g._grid[g._getFlatIndex i j k], List.getElem?_eq_getElem hlt, ?_⟩
  unfold operatorCall
  simp [hr, List.getElem?_eq_getElem hlt]

theorem operatorCall_of_not_inBounds (g : Array3d T) (i j k : Int)
    (hb : ¬ g.InBounds i j k) :
    g.operatorCall i j k =
      if g._isOutOfRangeValueSet then (.ok g._outOfRangeValue, g) else (.error .assertion, g) := by
  have hr := (isIndexInRange_eq_false_iff g i j k).2 hb
  unfold operatorCall
  cases hs : g._isOutOfRangeValueSet <;> simp [hr]

theorem valid_sampleGrid : sampleGrid.Valid := by decide

theorem valid_sampleGridSentinel : sampleGridSentinel.Valid := by decide

end Array3d

/-- C1: on every grid that satisfies the representation invariant and for every
index inside the declared bounds, `set(i,j,k,v)` succeeds and the following
`operator()(i,j,k)` returns `v`; the sentinel configuration plays no role and
is left as it was. -/
theorem C1_read_after_write {T : Type} (g : Array3d T) (i j k : Int) (v : T)
    (hv : g.Valid) (hb : g.InBounds i j k) :
    ∃ g1 : Array3d T, g.set i j k v = (.ok (), g1) ∧
      g1.operatorCall i j k = (.ok v, g1) ∧
      g1._isOutOfRangeValueSet = g._isOutOfRangeValueSet ∧
      g1._outOfRangeValue = g._outOfRangeValue := by
  have hr := (Array3d.isIndexInRange_iff g i j k).2 hb
  have hlt := (Array3d.flatIndex_of_inBounds g i j k hv hb).2.1
  refine ⟨_, Array3d.set_of_inBounds g i j k v hv hb, ?_, rfl, rfl⟩
  have hr1 : Array3d._isIndexInRange
      { g with _grid := g._grid.set (g._getFlatIndex i j k) v } i j k = true := hr
  have hf1 : Array3d._getFlatIndex
      { g with _grid := g._grid.set (g._getFlatIndex i j k) v } i j k =
      g._getFlatIndex i j k := rfl
  unfold Array3d.operatorCall
  simp only [hr1, hf1, Bool.not_true, Bool.false_and, Bool.false_eq_true, if_false]
  rw [List.getElem?_set_self hlt]

theorem C1_read_after_write_witness :
    sampleGrid.Valid ∧ sampleGrid.InBounds 1 0 1 ∧
    ∃ g1 : Array3d Int, sampleGrid.set 1 0 1 99 = (.ok (), g1) ∧
      g1.operatorCall 1 0 1 = (.ok 99, g1) ∧
      g1._isOutOfRangeValueSet = sampleGrid._isOutOfRangeValueSet ∧
      g1._outOfRangeValue = sampleGrid._outOfRangeValue :=
  ⟨Array3d.valid_sampleGrid, by decide,
    C1_read_after_write sampleGrid 1 0 1 99 Array3d.valid_sampleGrid (by decide)⟩

/-- C2: on a grid whose sentinel is configured, in particular right after
`setOutOfRangeValue(s)`, `operator()` at any index outside the declared bounds
(negative components included) returns the sentinel without fault and hands
back the very same grid state. -/
theorem C2_out_of_bounds_read_sentinel {T : Type} (g : Array3d T) (s : T) (i j k : Int)
    (hb : ¬ (0 ≤ i ∧ i < g.width ∧ 0 ≤ j ∧ j < g.height ∧ 0 ≤ k ∧ k < g.depth)) :
    (g.setOutOfRangeValue s).1 = .ok () ∧
    (g.setOutOfRangeValue s).2.operatorCall i j k = (.ok s, (g.setOutOfRangeValue s).2) ∧
    (g.setOutOfRangeValue s).2._grid = g._grid ∧
    (g._isOutOfRangeValueSet = true → g.operatorCall i j k = (.ok g._outOfRangeValue, g)) := by
  refine ⟨rfl, ?_, rfl, ?_⟩
  · have hb1 : ¬ (g.setOutOfRangeValue s).2.InBounds i j k := hb
    rw [Array3d.operatorCall_of_not_inBounds _ i j k hb1]
    rfl
  · intro hs
    have hb0 : ¬ g.InBounds i j k := hb
    rw [Array3d.operatorCall_of_not_inBounds g i j k hb0, hs]
    rfl

theorem C2_out_of_bounds_read_sentinel_witness :
    ¬ (0 ≤ (-1 : Int) ∧ (-1 : Int) < sampleGrid.width ∧ 0 ≤ (5 : Int) ∧
        (5 : Int) < sampleGrid.height ∧ 0 ≤ (0 : Int) ∧ (0 : Int) < sampleGrid.depth) ∧
    (sampleGrid.setOutOfRangeValue 42).2.operatorCall (-1) 5 0 =
      (.ok 42, (sampleGrid.setOutOfRangeValue 42).2) :=
  ⟨by decide, (C2_out_of_bounds_read_sentinel sampleGrid 42 (-1) 5 0 (by decide)).2.1⟩

/-- C3: on a valid grid `operator()(i,j,k)` faults if and only if the index is
outside the declared bounds and no sentinel is configured; the fault is then the
failed assertion, and in every other case the call returns a value. -/
theorem C3_read_fails_iff {T : Type} (g : Array3d T) (i j k : Int) (hv : g.Valid) :
    ((∃ e, (g.operatorCall i j k).1 = .error e) ↔
        (¬ g.InBounds i j k ∧ g._isOutOfRangeValueSet = false)) ∧
    ((¬ g.InBounds i j k ∧ g._isOutOfRangeValueSet = false) →
        g.operatorCall i j k = (.error .assertion, g)) ∧
    (¬ (¬ g.InBounds i j k ∧ g._isOutOfRangeValueSet = false) →
        ∃ v, g.operatorCall i j k = (.ok v, g)) := by
  by_cases hb : g.InBounds i j k
  · obtain ⟨v, _, hread⟩ := Array3d.operatorCall_of_inBounds g i j k hv hb
    refine ⟨⟨?_, fun h => absurd hb h.1⟩, fun h => absurd hb h.1, fun _ => ⟨v, hread⟩⟩
    rintro ⟨e, he⟩
    rw [hread] at he
    exact absurd he (by simp)
  · have hread := Array3d.operatorCall_of_not_inBounds g i j k hb
    cases hs : g._isOutOfRangeValueSet
    · rw [hs] at hread
      simp only [Bool.false_eq_true, if_false] at hread
      refine ⟨⟨fun _ => ⟨hb, rfl⟩, fun _ => ⟨.assertion, by rw [hread]⟩⟩, fun _ => hread, ?_⟩
      intro h
      exact absurd ⟨hb, rfl⟩ h
    · rw [hs] at hread
      simp only [if_true] at hread
      refine ⟨⟨?_, fun h => absurd h.2 (by simp)⟩, fun h => absurd h.2 (by simp),
        fun _ => ⟨_, hread⟩⟩
      rintro ⟨e, he⟩
      rw [hread] at he
      exact absurd he (by simp)

theorem C3_read_fails_iff_witness :
    sampleGrid.Valid ∧ sampleGrid.operatorCall 2 0 0 = (.error .assertion, sampleGrid) :=
  ⟨Array3d.valid_sampleGrid,
    (C3_read_fails_iff sampleGrid 2 0 0 Array3d.valid_sampleGrid).2.1 ⟨by decide, rfl⟩⟩

/-- C4: `set` and `add` (integer and `GridIndex` overloads) at an index outside
the declared bounds stop at the assertion, whatever the sentinel configuration, and the grid state at the abort
is the state before the call: no element and no sentinel field is written. -/
theorem C4_out_of_bounds_write_fails {T : Type} [Add T] (g : Array3d T) (i j k : Int) (v : T)
    (hb : ¬ g.InBounds i j k) :
    g.set i j k v = (.error .assertion, g) ∧ g.add i j k v = (.error .assertion, g) ∧
    g.setG ⟨i, j, k⟩ v = (.error .assertion, g) ∧
    g.addG ⟨i, j, k⟩ v = (.error .assertion, g) := by
  have hr := (Array3d.isIndexInRange_eq_false_iff g i j k).2 hb
  refine ⟨?_, ?_, ?_, ?_⟩
  · unfold Array3d.set
    simp [hr]
  · unfold Array3d.add
    simp [hr]
  · unfold Array3d.setG
    simp [hr]
  · unfold Array3d.addG
    simp [hr]

theorem C4_out_of_bounds_write_fails_witness :
    ¬ sampleGridSentinel.InBounds 0 (-1) 0 ∧
    sampleGridSentinel.set 0 (-1) 0 5 = (.error .assertion, sampleGridSentinel) ∧
    sampleGridSentinel.add 0 (-1) 0 5 = (.error .assertion, sampleGridSentinel) :=
  ⟨by decide,
    (C4_out_of_bounds_write_fails sampleGridSentinel 0 (-1) 0 5 (by decide)).1,
    (C4_out_of_bounds_write_fails sampleGridSentinel 0 (-1) 0 5 (by decide)).2.1⟩

/-- C7: `GridIndex::operator==` is true exactly when the three components agree;
it is therefore reflexive, symmetric and transitive, and `GridIndex()` equals
`GridIndex(0,0,0)`. -/
theorem C7_gridindex_eq_componentwise (g h l : GridIndex) :
    (g.operatorEq h = true ↔ (g.i = h.i ∧ g.j = h.j ∧ g.k = h.k)) ∧
    g.operatorEq g = true ∧
    g.operatorEq h = h.operatorEq g ∧
    (g.operatorEq h = true → h.operatorEq l = true → g.operatorEq l = true) ∧
    GridIndex.default.operatorEq (GridIndex.new 0 0 0) = true := by
  have key : ∀ a b : GridIndex,
      a.operatorEq b = true ↔ (a.i = b.i ∧ a.j = b.j ∧ a.k = b.k) := by
    intro a b
    unfold GridIndex.operatorEq
    simp only [Bool.and_eq_true, beq_iff_eq]
    tauto
  refine ⟨key g h, (key g g).2 ⟨rfl, rfl, rfl⟩, ?_, ?_, ?_⟩
  · rw [Bool.eq_iff_iff, key g h, key h g]
    constructor
    · rintro ⟨a, b, c⟩
      exact ⟨a.symm, b.symm, c.symm⟩
    · rintro ⟨a, b, c⟩
      exact ⟨a.symm, b.symm, c.symm⟩
  · intro h1 h2
    obtain ⟨a1, b1, c1⟩ := (key g h).1 h1
    obtain ⟨a2, b2, c2⟩ := (key h l).1 h2
    exact (key g l).2 ⟨a1.trans a2, b1.trans b2, c1.trans c2⟩
  · exact (key _ _).2 ⟨rfl, rfl, rfl⟩

theorem C7_gridindex_eq_componentwise_witness :
    (GridIndex.new 1 2 3).operatorEq (GridIndex.new 1 2 3) = true ∧
    ((GridIndex.new 1 2 3).operatorEq (GridIndex.new 1 2 4) = true ↔
      ((1 : Int) = 1 ∧ (2 : Int) = 2 ∧ (3 : Int) = 4)) :=
  ⟨(C7_gridindex_eq_componentwise (GridIndex.new 1 2 3) (GridIndex.new 1 2 3)
      (GridIndex.new 1 2 3)).2.2.2.1 (by decide) (by decide),
    (C7_gridindex_eq_componentwise (GridIndex.new 1 2 3) (GridIndex.new 1 2 4)
      (GridIndex.new 0 0 0)).1⟩

/-- C8 as stated fails: the in-class initialiser leaves `_weightType` different
from `WEIGHT_TRILINEAR`. -/
theorem C8_initial_weight_not_trilinear :
    SparseImplicitSurfaceScalarField.initial._weightType ≠
      SparseImplicitSurfaceScalarField.initial.WEIGHT_TRILINEAR := by
  decide

/-- C8 amended: a `SparseImplicitSurfaceScalarField` whose members hold their
in-class initial values has `_weightType = 0 = WEIGHT_TRICUBIC`, while
`WEIGHT_TRILINEAR` is `1`: the initial weighting mode is tricubic. -/
theorem C8_initial_weight_is_tricubic :
    SparseImplicitSurfaceScalarField.initial._weightType =
      SparseImplicitSurfaceScalarField.initial.WEIGHT_TRICUBIC ∧
    SparseImplicitSurfaceScalarField.initial._weightType = 0 ∧
    SparseImplicitSurfaceScalarField.initial.WEIGHT_TRILINEAR = 1 := by
  decide

/-- C10 as stated fails: the particle built by `DiffuseParticle()` carries a
type that is none of `DP_BUBBLE`, `DP_FOAM`, `DP_SPRAY`. -/
theorem C10_default_particle_unclassified :
    ¬ ((DiffuseParticle.default : DiffuseParticle Float).type = FluidSimulation.DP_BUBBLE ∨
       (DiffuseParticle.default : DiffuseParticle Float).type = FluidSimulation.DP_FOAM ∨
       (DiffuseParticle.default : DiffuseParticle Float).type = FluidSimulation.DP_SPRAY) := by
  have h : (DiffuseParticle.default : DiffuseParticle Float).type = -1 := rfl
  rw [h]
  decide

/-- C10 amended: both `DiffuseParticle` constructors set `type` to `-1`, a value
outside the three pairwise distinct classification codes `DP_BUBBLE = 0`,
`DP_FOAM = 1`, `DP_SPRAY = 2`. -/
theorem C10_constructed_particle_type {F : Type} [OfScientific F] (p v : vec3 F) (time : F) :
    (DiffuseParticle.default : DiffuseParticle F).type = -1 ∧
    (DiffuseParticle.new p v time).type = -1 ∧
    (-1 : Int) ≠ FluidSimulation.DP_BUBBLE ∧
    (-1 : Int) ≠ FluidSimulation.DP_FOAM ∧
    (-1 : Int) ≠ FluidSimulation.DP_SPRAY ∧
    FluidSimulation.DP_BUBBLE ≠ FluidSimulation.DP_FOAM ∧
    FluidSimulation.DP_FOAM ≠ FluidSimulation.DP_SPRAY ∧
    FluidSimulation.DP_BUBBLE ≠ FluidSimulation.DP_SPRAY := by
  refine ⟨rfl, rfl, ?_, ?_, ?_, ?_, ?_, ?_⟩ <;> decide

/-! ## Loops -/

theorem forRange_preserves {σ : Type} (P : σ → Prop)
    (body : Nat → σ → Except Fault Unit × σ)
    (hbody : ∀ idx s, P s → P (body idx s).2) :
    ∀ (count start : Nat) (s : σ), P s → P (forRange body count start s).2 := by
  intro count
  induction count with
  | zero =>
    intro start s hs
    exact hs
  | succ n ih =>
    intro start s hs
    have hstep := hbody start s hs
    unfold forRange
    cases hres : body start s with
    | mk r s1 =>
      rw [hres] at hstep
      cases r with
      | error e => exact hstep
      | ok u => exact ih (start + 1) s1 hstep

theorem forRange_ok {σ : Type} (P : Nat → σ → Prop)
    (body : Nat → σ → Except Fault Unit × σ) :
    ∀ (count start : Nat) (s : σ), P start s →
      (∀ idx t, start ≤ idx → idx < start + count → P idx t →
        (body idx t).1 = .ok () ∧ P (idx + 1) (body idx t).2) →
      (forRange body count start s).1 = .ok () ∧
        P (start + count) (forRange body count start s).2 := by
  intro count
  induction count with
  | zero =>
    intro start s hs _
    exact ⟨rfl, hs⟩
  | succ n ih =>
    intro start s hs hbody
    obtain ⟨hok, hnext⟩ := hbody start s (Nat.le_refl _) (by omega) hs
    unfold forRange
    cases hres : body start s with
    | mk r s1 =>
      rw [hres] at hok hnext
      cases r with
      | error e => exact absurd hok (by simp)
      | ok u =>
        have := ih (start + 1) s1 hnext (fun idx t h1 h2 h3 =>
          hbody idx t (by omega) (by omega) h3)
        have e : start + 1 + n = start + (n + 1) := by omega
        rw [e] at this
        exact this

/-! ## The dimensions are never written -/

namespace Array3d

variable {T : Type}

theorem sameDims_refl (g : Array3d T) : g.sameDims g := ⟨rfl, rfl, rfl⟩

theorem sameDims_trans {g g1 g2 : Array3d T} (h1 : g.sameDims g1) (h2 : g1.sameDims g2) :
    g.sameDims g2 :=
  ⟨h2.1.trans h1.1, h2.2.1.trans h1.2.1, h2.2.2.trans h1.2.2⟩

theorem sameDims_set (g : Array3d T) (i j k : Int) (v : T) : g.sameDims (g.set i j k v).2 := by
  unfold set
  split
  · exact sameDims_refl g
  · split
    · exact ⟨rfl, rfl, rfl⟩
    · exact sameDims_refl g

theorem sameDims_setG (g : Array3d T) (x : GridIndex) (v : T) : g.sameDims (g.setG x v).2 := by
  unfold setG
  split
  · exact sameDims_refl g
  · split
    · exact ⟨rfl, rfl, rfl⟩
    · exact sameDims_refl g

theorem sameDims_add [Add T] (g : Array3d T) (i j k : Int) (v : T) :
    g.sameDims (g.add i j k v).2 := by
  unfold add
  split
  · exact sameDims_refl g
  · split
    · exact ⟨rfl, rfl, rfl⟩
    · exact sameDims_refl g

theorem sameDims_addG [Add T] (g : Array3d T) (x : GridIndex) (v : T) :
    g.sameDims (g.addG x v).2 := by
  unfold addG
  split
  · exact sameDims_refl g
  · split
    · exact ⟨rfl, rfl, rfl⟩
    · exact sameDims_refl g

theorem sameDims_fillStep (g : Array3d T) (v : T) (idx : Nat) :
    g.sameDims (fillStep v idx g).2 := by
  unfold fillStep
  split
  · exact ⟨rfl, rfl, rfl⟩
  · exact sameDims_refl g

theorem sameDims_fill (g : Array3d T) (v : T) : g.sameDims (g.fill v).2 := by
  unfold fill
  split
  · exact sameDims_refl g
  · exact forRange_preserves (fun s => g.sameDims s) (fillStep v)
      (fun idx s hs => sameDims_trans hs (sameDims_fillStep s v idx)) _ 0 g (sameDims_refl g)

theorem sameDims_setCells (g : Array3d T) (cells : List GridIndex) (v : T) :
    g.sameDims (g.setCells cells v).2 := by
  unfold setCells
  refine forRange_preserves (fun s => g.sameDims s) _ ?_ _ 0 g (sameDims_refl g)
  intro idx s hs
  dsimp only
  split
  · exact sameDims_trans hs (sameDims_setG s _ v)
  · exact hs

theorem state_operatorCall (g : Array3d T) (i j k : Int) :
    (g.operatorCall i j k).2 = g := by
  unfold operatorCall
  dsimp only
  split
  · rfl
  · split
    · rfl
    · split <;> rfl

theorem state_operatorCallG (g : Array3d T) (x : GridIndex) :
    (g.operatorCallG x).2 = g := by
  unfold operatorCallG
  dsimp only
  split
  · rfl
  · split
    · rfl
    · split <;> rfl

theorem state_getPointer (g : Array3d T) (i j k : Int) : (g.getPointer i j k).2 = g := by
  unfold getPointer
  dsimp only
  split
  · rfl
  · split <;> rfl

theorem state_getPointerG (g : Array3d T) (x : GridIndex) : (g.getPointerG x).2 = g := by
  unfold getPointerG
  dsimp only
  split
  · rfl
  · split <;> rfl

theorem state_getNumElements (g : Array3d T) : g.getNumElements.2 = g := by
  unfold getNumElements
  split <;> rfl

end Array3d

/-- C9: none of `set` (all three overloads), `add`, `fill`, `setOutOfRangeValue`
(both overloads), `operator()`, `getPointer`, `isIndexInRange` and
`getNumElements` changes `width`, `height` or `depth`, whether the call succeeds
or aborts; and two states with the same dimensions give the same
`getNumElements()` result and the same in-range indices. -/
theorem C9_dimensions_fixed {T : Type} [Add T] (g : Array3d T) (i j k : Int) (x : GridIndex)
    (cells : List GridIndex) (v : T) :
    g.sameDims (g.set i j k v).2 ∧
    g.sameDims (g.setG x v).2 ∧
    g.sameDims (g.setCells cells v).2 ∧
    g.sameDims (g.add i j k v).2 ∧
    g.sameDims (g.addG x v).2 ∧
    g.sameDims (g.fill v).2 ∧
    g.sameDims (g.setOutOfRangeValue v).2 ∧
    g.sameDims g.setOutOfRangeValueNoArg.2 ∧
    g.sameDims (g.operatorCall i j k).2 ∧
    g.sameDims (g.operatorCallG x).2 ∧
    g.sameDims (g.getPointer i j k).2 ∧
    g.sameDims (g.getPointerG x).2 ∧
    g.sameDims (g.isIndexInRange i j k).2 ∧
    g.sameDims (g.isIndexInRangeG x).2 ∧
    g.sameDims g.getNumElements.2 ∧
    (∀ g1 : Array3d T, g.sameDims g1 →
      g1.getNumElements.1 = g.getNumElements.1 ∧
      ∀ a b c : Int,
        (g1.isIndexInRange a b c).1 = (g.isIndexInRange a b c).1 ∧
        g1._isIndexInRange a b c = g._isIndexInRange a b c ∧
        (g1.InBounds a b c ↔ g.InBounds a b c)) := by
  refine ⟨Array3d.sameDims_set g i j k v, Array3d.sameDims_setG g x v,
    Array3d.sameDims_setCells g cells v, Array3d.sameDims_add g i j k v,
    Array3d.sameDims_addG g x v, Array3d.sameDims_fill g v, ⟨rfl, rfl, rfl⟩, ⟨rfl, rfl, rfl⟩,
    ?_, ?_, ?_, ?_, ⟨rfl, rfl, rfl⟩, ⟨rfl, rfl, rfl⟩, ?_, ?_⟩
  · rw [Array3d.state_operatorCall]
    exact Array3d.sameDims_refl g
  · rw [Array3d.state_operatorCallG]
    exact Array3d.sameDims_refl g
  · rw [Array3d.state_getPointer]
    exact Array3d.sameDims_refl g
  · rw [Array3d.state_getPointerG]
    exact Array3d.sameDims_refl g
  · rw [Array3d.state_getNumElements]
    exact Array3d.sameDims_refl g
  · rintro g1 ⟨hw, hh, hd⟩
    refine ⟨?_, fun a b c => ⟨?_, ?_, ?_⟩⟩
    · unfold Array3d.getNumElements
      rw [hw, hh, hd]
      cases Array3d.numElements g.width g.height g.depth <;> rfl
    · unfold Array3d.isIndexInRange
      rw [hw, hh, hd]
    · unfold Array3d._isIndexInRange
      rw [hw, hh, hd]
    · unfold Array3d.InBounds
      rw [hw, hh, hd]

theorem C9_dimensions_fixed_witness :
    sampleGrid.sameDims (sampleGrid.fill 3).2 ∧
    (sampleGrid.fill 3).2.getNumElements.1 = sampleGrid.getNumElements.1 :=
  ⟨(C9_dimensions_fixed sampleGrid 0 0 0 ⟨0, 0, 0⟩ [] 3).2.2.2.2.2.1,
    ((C9_dimensions_fixed sampleGrid 0 0 0 ⟨0, 0, 0⟩ [] 3).2.2.2.2.2.2.2.2.2.2.2.2.2.2.2
      (sampleGrid.fill 3).2
      (C9_dimensions_fixed sampleGrid 0 0 0 ⟨0, 0, 0⟩ [] 3).2.2.2.2.2.1).1⟩

/-! ## The copy constructor -/

namespace Array3d

variable {T : Type}

theorem flatIndex_natCast (g : Array3d T) (hv : g.Valid) (a b c : Nat)
    (ha : a < g.width.toNat) (hb : b < g.height.toNat) (hc : c < g.depth.toNat) :
    g.InBounds a b c ∧
      g._getFlatIndex a b c = a + g.width.toNat * (b + g.height.toNat * c) := by
  have hW : g.width = (g.width.toNat : Int) := (Int.toNat_of_nonneg (by omega)).symm
  have hH : g.height = (g.height.toNat : Int) := (Int.toNat_of_nonneg (by omega)).symm
  have hD : g.depth = (g.depth.toNat : Int) := (Int.toNat_of_nonneg (by omega)).symm
  have hin : g.InBounds a b c :=
    ⟨Int.natCast_nonneg a, by omega, Int.natCast_nonneg b, by omega,
      Int.natCast_nonneg c, by omega⟩
  refine ⟨hin, ?_⟩
  have h := (flatIndex_of_inBounds g a b c hv hin).1
  rw [hW, hH] at h
  exact_mod_cast h

theorem valid_of_copiedUpTo {obj g : Array3d T} {junk : T} {m : Nat}
    (hv : obj.Valid) (h : CopiedUpTo obj junk m g) : g.Valid := by
  obtain ⟨hw, hh, hd, hlen, _⟩ := h
  unfold Valid at hv ⊢
  rw [hw, hh, hd, hlen]
  exact hv

theorem copyCell_step (obj g : Array3d T) (junk : T) (hv : obj.Valid) (k j i : Nat)
    (hk : k < obj.depth.toNat) (hj : j < obj.height.toNat) (hi : i < obj.width.toNat)
    (h : CopiedUpTo obj junk (i + obj.width.toNat * (j + obj.height.toNat * k)) g) :
    (copyCell obj k j i g).1 = .ok () ∧
      CopiedUpTo obj junk (i + 1 + obj.width.toNat * (j + obj.height.toNat * k))
        (copyCell obj k j i g).2 := by
  have hgv : g.Valid := valid_of_copiedUpTo hv h
  obtain ⟨hw, hh, hd, hlen, hflag, hoor, hpre⟩ := h
  obtain ⟨hin, hflat⟩ := flatIndex_natCast obj hv i j k hi hj hk
  obtain ⟨v, hval, hread⟩ := operatorCall_of_inBounds obj i j k hv hin
  have hing : g.InBounds i j k := by
    unfold InBounds
    rw [hw, hh, hd]
    exact hin
  have hfg : g._getFlatIndex i j k = obj._getFlatIndex i j k := by
    unfold _getFlatIndex
    rw [hw, hh]
  have hset := set_of_inBounds g i j k v hgv hing
  have hlt := (flatIndex_of_inBounds obj i j k hv hin).2.1
  unfold copyCell
  rw [hread]
  dsimp only
  rw [hset, hfg, hflat]
  refine ⟨rfl, hw, hh, hd, ?_, hflag, hoor, ?_⟩
  · show (g._grid.set _ v).length = obj._grid.length
    rw [List.length_set, hlen]
  · intro n hn
    show (g._grid.set _ v)[n]? = obj._grid[n]?
    by_cases hne : i + obj.width.toNat * (j + obj.height.toNat * k) = n
    · subst hne
      rw [List.getElem?_set_self (by rw [hlen, ← hflat]; exact hlt), ← hflat, hval]
    · rw [List.getElem?_set_ne hne]
      exact hpre n (by omega)

theorem copyCells_spec (obj g : Array3d T) (junk : T) (hv : obj.Valid)
    (h0 : CopiedUpTo obj junk 0 g) :
    (copyCells obj g).1 = .ok () ∧
      CopiedUpTo obj junk (obj.width.toNat * obj.height.toNat * obj.depth.toNat)
        (copyCells obj g).2 := by
  unfold copyCells
  have hK := forRange_ok
    (fun k s => CopiedUpTo obj junk (obj.width.toNat * obj.height.toNat * k) s)
    (fun k g1 =>
      forRange (fun j g2 =>
        forRange (fun i g3 => copyCell obj k j i g3) g2.width.toNat 0 g2)
        g1.height.toNat 0 g1)
    obj.depth.toNat 0 g (by simpa using h0) ?_
  · rw [h0.2.2.1]
    simpa using hK
  · intro k s _ hk hs
    dsimp only at hs ⊢
    have hJ := forRange_ok
      (fun j t => CopiedUpTo obj junk (obj.width.toNat * (j + obj.height.toNat * k)) t)
      (fun j g2 => forRange (fun i g3 => copyCell obj k j i g3) g2.width.toNat 0 g2)
      obj.height.toNat 0 s
      (by
        have e : obj.width.toNat * (0 + obj.height.toNat * k) =
            obj.width.toNat * obj.height.toNat * k := by ring
        show CopiedUpTo obj junk (obj.width.toNat * (0 + obj.height.toNat * k)) s
        rw [e]
        exact hs) ?_
    · rw [hs.2.1]
      have e : obj.width.toNat * (0 + obj.height.toNat + obj.height.toNat * k) =
          obj.width.toNat * obj.height.toNat * (k + 1) := by ring
      dsimp only at hJ
      rw [e] at hJ
      exact hJ
    · intro j t _ hj ht
      dsimp only at ht ⊢
      have hI := forRange_ok
        (fun i u => CopiedUpTo obj junk (i + obj.width.toNat * (j + obj.height.toNat * k)) u)
        (fun i g3 => copyCell obj k j i g3)
        obj.width.toNat 0 t
        (by
          show CopiedUpTo obj junk (0 + obj.width.toNat * (j + obj.height.toNat * k)) t
          rw [Nat.zero_add]
          exact ht) ?_
      · rw [ht.1]
        have e : 0 + obj.width.toNat + obj.width.toNat * (j + obj.height.toNat * k) =
            obj.width.toNat * (j + 1 + obj.height.toNat * k) := by ring
        dsimp only at hI
        rw [e] at hI
        exact hI
      · intro i u _ hi hu
        exact copyCell_step obj u junk hv k j i (by omega) (by omega) (by omega) hu

/-- Two grids of one shape whose buffers agree on every in-range offset and
whose sentinel configuration agrees give the same outcome for every read. -/
theorem operatorCall_congr (obj c : Array3d T) (hv : obj.Valid)
    (hw : c.width = obj.width) (hh : c.height = obj.height) (hd : c.depth = obj.depth)
    (hlen : c._grid.length = obj._grid.length)
    (hpre : ∀ n, n < obj.width.toNat * obj.height.toNat * obj.depth.toNat →
      c._grid[n]? = obj._grid[n]?)
    (hflag : c._isOutOfRangeValueSet = obj._isOutOfRangeValueSet)
    (hoor : obj._isOutOfRangeValueSet = true → c._outOfRangeValue = obj._outOfRangeValue)
    (i j k : Int) :
    (c.operatorCall i j k).1 = (obj.operatorCall i j k).1 := by
  have hcv : c.Valid := by
    unfold Valid at hv ⊢
    rw [hw, hh, hd, hlen]
    exact hv
  by_cases hb : obj.InBounds i j k
  · have hbc : c.InBounds i j k := by
      unfold InBounds
      rw [hw, hh, hd]
      exact hb
    obtain ⟨v, hval, hread⟩ := operatorCall_of_inBounds obj i j k hv hb
    obtain ⟨v1, hval1, hread1⟩ := operatorCall_of_inBounds c i j k hcv hbc
    have hfc : c._getFlatIndex i j k = obj._getFlatIndex i j k := by
      unfold _getFlatIndex
      rw [hw, hh]
    obtain ⟨hi0, hiw, hj0, hjh, hk0, hkd⟩ := hb
    lift i to Nat using hi0
    lift j to Nat using hj0
    lift k to Nat using hk0
    have hi : i < obj.width.toNat := by omega
    have hj : j < obj.height.toNat := by omega
    have hk : k < obj.depth.toNat := by omega
    have hflat := (flatIndex_natCast obj hv i j k hi hj hk).2
    have hlt := offset_lt_of_lt hi hj hk
    rw [hfc, hflat, hpre _ hlt, ← hflat, hval] at hval1
    rw [hread, hread1, Option.some.inj hval1]
  · have hbc : ¬ c.InBounds i j k := by
      unfold InBounds
      rw [hw, hh, hd]
      exact hb
    rw [operatorCall_of_not_inBounds obj i j k hb, operatorCall_of_not_inBounds c i j k hbc, hflag]
    cases hs : obj._isOutOfRangeValueSet
    · rfl
    · simp only [if_true]
      rw [hoor hs]

/-- The copy constructor on a valid grid: it succeeds, and the new grid has the
shape, the sentinel configuration and every read outcome of the original. -/
theorem copy_spec (mem : Nat → T) (junk : T) (obj : Array3d T) (hv : obj.Valid) :
    (copy mem junk obj).1 = .ok () ∧
    (copy mem junk obj).2.Valid ∧
    (copy mem junk obj).2.width = obj.width ∧
    (copy mem junk obj).2.height = obj.height ∧
    (copy mem junk obj).2.depth = obj.depth ∧
    (copy mem junk obj).2._isOutOfRangeValueSet = obj._isOutOfRangeValueSet ∧
    (obj._isOutOfRangeValueSet = true →
      (copy mem junk obj).2._outOfRangeValue = obj._outOfRangeValue) ∧
    (∀ i j k : Int,
      ((copy mem junk obj).2.operatorCall i j k).1 = (obj.operatorCall i j k).1) := by
  have hv1 : numElements obj.width obj.height obj.depth = some (obj._grid.length : Int) := hv
  obtain ⟨G, hG⟩ : ∃ G : Array3d T, G =
      { fresh junk with width := obj.width, height := obj.height, depth := obj.depth,
                        _grid := (List.range obj._grid.length).map mem } := ⟨_, rfl⟩
  have hinit : _initializeGrid mem
      { fresh junk with width := obj.width, height := obj.height, depth := obj.depth } =
      (.ok (), G) := by
    unfold _initializeGrid
    dsimp only
    rw [hv1]
    have hn : ¬ ((obj._grid.length : Int) < 0) := by omega
    simp only [hn, if_false, Int.toNat_natCast]
    rw [hG]
  have h0 : CopiedUpTo obj junk 0 G := by
    rw [hG]
    refine ⟨rfl, rfl, rfl, ?_, rfl, rfl, ?_⟩
    · simp
    · intro n hn
      exact absurd hn (Nat.not_lt_zero n)
  obtain ⟨hok, hfin⟩ := copyCells_spec obj G junk hv h0
  have hgv := valid_of_copiedUpTo hv hfin
  obtain ⟨hw, hh, hd, hlen, hflag, hoor, hpre⟩ := hfin
  unfold copy
  rw [hinit]
  dsimp only
  cases hres : copyCells obj G with
  | mk r g2 =>
    rw [hres] at hok hgv hw hh hd hlen hflag hoor hpre
    dsimp only at hok hgv hw hh hd hlen hflag hoor hpre
    subst hok
    dsimp only [isOutOfRangeValueSet, getOutOfRangeValue]
    cases hs : obj._isOutOfRangeValueSet
    · rw [if_neg (by simp)]
      refine ⟨rfl, hgv, hw, hh, hd, hflag, fun h => absurd h (by simp), ?_⟩
      intro i j k
      exact operatorCall_congr obj _ hv hw hh hd hlen hpre (by rw [hflag, hs])
        (fun h => absurd h (by simp [hs])) i j k
    · rw [if_pos rfl]
      refine ⟨rfl, hgv, hw, hh, hd, rfl, fun _ => rfl, ?_⟩
      intro i j k
      exact operatorCall_congr obj
        { g2 with _outOfRangeValue := obj._outOfRangeValue, _isOutOfRangeValueSet := true }
        hv hw hh hd hlen hpre (by rw [hs]) (fun _ => rfl) i j k

end Array3d

/-! ## Buffers in the free store -/

namespace FreeStore

variable {T : Type}

theorem load_lt {store : FreeStore T} {o : Array3dObject T} {g : Array3d T}
    (h : load store o = some g) : o._grid < store.length := by
  unfold load at h
  by_contra hge
  have hnone : store[o._grid]? = none := List.getElem?_eq_none (by omega)
  rw [hnone] at h
  exact absurd h (by simp)

theorem load_append {store : FreeStore T} {o : Array3dObject T} {g : Array3d T}
    (b : List T) (h : load store o = some g) : load (store ++ [b]) o = some g := by
  have hlt := load_lt h
  unfold load at h ⊢
  rw [List.getElem?_append_left hlt]
  exact h

theorem load_new (store : FreeStore T) (c : Array3d T) :
    load (store ++ [c._grid]) (objectAt store.length c) = some c := by
  unfold load objectAt
  simp

theorem load_set_ne (store : FreeStore T) (a : Nat) (b : List T) (o : Array3dObject T)
    (h : a ≠ o._grid) : load (store.set a b) o = load store o := by
  unfold load
  rw [List.getElem?_set_ne h]

theorem load_call_ne {α : Type} (op : Array3d T → Except Fault α × Array3d T)
    (store : FreeStore T) (o p : Array3dObject T) (h : o._grid ≠ p._grid) :
    load (call op store o).2.1 p = load store p := by
  unfold call
  cases load store o with
  | none => rfl
  | some g => exact load_set_ne store o._grid _ p h

theorem call_fst_congr {α : Type} (op : Array3d T → Except Fault α × Array3d T)
    (s1 s2 : FreeStore T) (o : Array3dObject T) (h : load s2 o = load s1 o) :
    (call op s2 o).1 = (call op s1 o).1 := by
  unfold call
  rw [h]
  cases load s1 o <;> rfl

end FreeStore

/-- C5: copy-constructing from a valid grid succeeds and yields an object with
the same `width`, `height`, `depth`, the same value at every in-range index and
the same out-of-range behaviour (same sentinel when one is set, the assertion
otherwise); its buffer is a new one, so a later `set` through either object
leaves every read through the other unchanged. -/
theorem C5_copy_constructor {T : Type} (mem : Nat → T) (junk : T) (store : FreeStore T)
    (o : Array3dObject T) (g : Array3d T)
    (hload : store.load o = some g) (hv : g.Valid) :
    ∃ (store1 : FreeStore T) (c : Array3dObject T) (gc : Array3d T),
      FreeStore.copyConstruct mem junk store o = (.ok (), store1, c) ∧
      FreeStore.load store1 o = some g ∧ FreeStore.load store1 c = some gc ∧
      c._grid ≠ o._grid ∧
      gc.width = g.width ∧ gc.height = g.height ∧ gc.depth = g.depth ∧
      gc._isOutOfRangeValueSet = g._isOutOfRangeValueSet ∧
      (g._isOutOfRangeValueSet = true → gc._outOfRangeValue = g._outOfRangeValue) ∧
      (∀ i j k : Int, g.InBounds i j k →
        ∃ v, (g.operatorCall i j k).1 = .ok v ∧ (gc.operatorCall i j k).1 = .ok v) ∧
      (∀ i j k : Int, (gc.operatorCall i j k).1 = (g.operatorCall i j k).1) ∧
      (∀ (i j k : Int) (v : T) (a b d : Int),
        (FreeStore.call (fun x => x.operatorCall a b d)
            (FreeStore.call (fun x => x.set i j k v) store1 c).2.1 o).1 =
          (FreeStore.call (fun x => x.operatorCall a b d) store1 o).1 ∧
        (FreeStore.call (fun x => x.operatorCall a b d)
            (FreeStore.call (fun x => x.set i j k v) store1 o).2.1 c).1 =
          (FreeStore.call (fun x => x.operatorCall a b d) store1 c).1) := by
  obtain ⟨hok, hcv, hw, hh, hd, hflag, hoor, hread⟩ := Array3d.copy_spec mem junk g hv
  have hlt := FreeStore.load_lt hload
  have hne : (FreeStore.objectAt store.length (Array3d.copy mem junk g).2)._grid ≠ o._grid := by
    show store.length ≠ o._grid
    omega
  refine ⟨store ++ [(Array3d.copy mem junk g).2._grid],
    FreeStore.objectAt store.length (Array3d.copy mem junk g).2,
    (Array3d.copy mem junk g).2, ?_, FreeStore.load_append _ hload,
    FreeStore.load_new store _, hne, hw, hh, hd, hflag, hoor, ?_, hread, ?_⟩
  · unfold FreeStore.copyConstruct
    rw [hload]
    dsimp only
    cases hres : Array3d.copy mem junk g with
    | mk r c =>
      rw [hres] at hok
      dsimp only at hok
      subst hok
      rfl
  · intro i j k hb
    obtain ⟨v, _, hv1⟩ := Array3d.operatorCall_of_inBounds g i j k hv hb
    refine ⟨v, by rw [hv1], ?_⟩
    rw [hread i j k, hv1]
  · intro i j k v a b d
    constructor
    · exact FreeStore.call_fst_congr _ _ _ o (FreeStore.load_call_ne _ _ _ o hne)
    · exact FreeStore.call_fst_congr _ _ _ _ (FreeStore.load_call_ne _ _ o _ (Ne.symm hne))

theorem C5_copy_constructor_witness :
    FreeStore.load sampleStore sampleObject = some sampleGrid ∧ sampleGrid.Valid ∧
    ∃ (store1 : FreeStore Int) (c : Array3dObject Int) (gc : Array3d Int),
      FreeStore.copyConstruct (fun _ => 0) 0 sampleStore sampleObject = (.ok (), store1, c) ∧
      FreeStore.load store1 sampleObject = some sampleGrid ∧
      FreeStore.load store1 c = some gc ∧
      c._grid ≠ sampleObject._grid ∧
      gc.width = sampleGrid.width ∧ gc.height = sampleGrid.height ∧
      gc.depth = sampleGrid.depth ∧
      gc._isOutOfRangeValueSet = sampleGrid._isOutOfRangeValueSet ∧
      (sampleGrid._isOutOfRangeValueSet = true →
        gc._outOfRangeValue = sampleGrid._outOfRangeValue) ∧
      (∀ i j k : Int, sampleGrid.InBounds i j k →
        ∃ v, (sampleGrid.operatorCall i j k).1 = .ok v ∧ (gc.operatorCall i j k).1 = .ok v) ∧
      (∀ i j k : Int, (gc.operatorCall i j k).1 = (sampleGrid.operatorCall i j k).1) ∧
      (∀ (i j k : Int) (v : Int) (a b d : Int),
        (FreeStore.call (fun x => x.operatorCall a b d)
            (FreeStore.call (fun x => x.set i j k v) store1 c).2.1 sampleObject).1 =
          (FreeStore.call (fun x => x.operatorCall a b d) store1 sampleObject).1 ∧
        (FreeStore.call (fun x => x.operatorCall a b d)
            (FreeStore.call (fun x => x.set i j k v) store1 sampleObject).2.1 c).1 =
          (FreeStore.call (fun x => x.operatorCall a b d) store1 c).1) :=
  ⟨rfl, Array3d.valid_sampleGrid,
    C5_copy_constructor (fun _ => 0) 0 sampleStore sampleObject sampleGrid rfl
      Array3d.valid_sampleGrid⟩

/-! ## The representation invariant is established and kept -/

namespace Array3d

variable {T : Type}

theorem valid_of_sameDims {g g1 : Array3d T} (hv : g.Valid) (hd : g.sameDims g1)
    (hl : g1._grid.length = g._grid.length) : g1.Valid := by
  obtain ⟨hw, hh, hdp⟩ := hd
  unfold Valid at hv ⊢
  rw [hw, hh, hdp, hl]
  exact hv

theorem valid_initializeGrid (mem : Nat → T) (g : Array3d T)
    (h : (g._initializeGrid mem).1 = .ok ()) : (g._initializeGrid mem).2.Valid := by
  unfold _initializeGrid at h ⊢
  cases hn : numElements g.width g.height g.depth with
  | none =>
    rw [hn] at h
    exact absurd h (by simp)
  | some n =>
    rw [hn] at h
    dsimp only at h ⊢
    by_cases hneg : n < 0
    · rw [if_pos hneg] at h
      exact absurd h (by simp)
    · rw [if_neg hneg]
      unfold Valid
      dsimp only
      rw [hn, List.length_map, List.length_range, Int.toNat_of_nonneg (by omega)]

/-- Every grid the constructor `Array3d(i, j, k)` returns satisfies the
invariant and has the requested dimensions. -/
theorem valid_new (mem : Nat → T) (junk : T) (i j k : Int)
    (h : (new mem junk i j k).1 = .ok ()) :
    (new mem junk i j k).2.Valid ∧ (new mem junk i j k).2.width = i ∧
      (new mem junk i j k).2.height = j ∧ (new mem junk i j k).2.depth = k := by
  refine ⟨valid_initializeGrid mem _ h, ?_, ?_, ?_⟩ <;>
  · unfold new _initializeGrid
    dsimp only
    split
    · rfl
    · split <;> rfl

theorem length_set (g : Array3d T) (i j k : Int) (v : T) :
    (g.set i j k v).2._grid.length = g._grid.length := by
  unfold set
  split
  · rfl
  · split
    · exact List.length_set _ _ _
    · rfl

theorem length_add [Add T] (g : Array3d T) (i j k : Int) (v : T) :
    (g.add i j k v).2._grid.length = g._grid.length := by
  unfold add
  split
  · rfl
  · split
    · exact List.length_set _ _ _
    · rfl

theorem valid_set (g : Array3d T) (i j k : Int) (v : T) (hv : g.Valid) :
    (g.set i j k v).2.Valid :=
  valid_of_sameDims hv (sameDims_set g i j k v) (length_set g i j k v)

theorem valid_add [Add T] (g : Array3d T) (i j k : Int) (v : T) (hv : g.Valid) :
    (g.add i j k v).2.Valid :=
  valid_of_sameDims hv (sameDims_add g i j k v) (length_add g i j k v)

theorem valid_setOutOfRangeValue (g : Array3d T) (s : T) (hv : g.Valid) :
    (g.setOutOfRangeValue s).2.Valid := hv

theorem valid_fill (g : Array3d T) (v : T) (hv : g.Valid) : (g.fill v).2.Valid := by
  unfold fill
  split
  · exact hv
  · refine forRange_preserves (fun s => s.Valid) (fillStep v) ?_ _ 0 g hv
    intro idx s hs
    refine valid_of_sameDims hs (sameDims_fillStep s v idx) ?_
    unfold fillStep
    split
    · exact List.length_set _ _ _
    · rfl

end Array3d

/-! ## Distinct cells have distinct offsets -/

theorem factor_eq_zero {x w y : Int} (h1 : -w < x) (h2 : x < w) (h : x = w * y) : y = 0 := by
  by_contra hy
  rcases lt_or_gt_of_ne hy with hneg | hpos
  · have hy1 : y ≤ -1 := by omega
    have hw : 0 < w := by omega
    have : w * y ≤ w * (-1) := mul_le_mul_of_nonneg_left hy1 (le_of_lt hw)
    omega
  · have hy1 : 1 ≤ y := by omega
    have hw : 0 < w := by omega
    have : w * 1 ≤ w * y := mul_le_mul_of_nonneg_left hy1 (le_of_lt hw)
    omega

namespace Array3d

variable {T : Type}

/-- On a valid grid two in-range indices with the same buffer offset are the
same index. -/
theorem flatIndex_injective (g : Array3d T) (hv : g.Valid) (i j k a b c : Int)
    (hp : g.InBounds i j k) (hq : g.InBounds a b c)
    (h : g._getFlatIndex a b c = g._getFlatIndex i j k) :
    a = i ∧ b = j ∧ c = k := by
  have h1 := (flatIndex_of_inBounds g i j k hv hp).1
  have h2 := (flatIndex_of_inBounds g a b c hv hq).1
  rw [h] at h2
  rw [h1] at h2
  obtain ⟨hi0, hiw, hj0, hjh, hk0, hkd⟩ := hp
  obtain ⟨ha0, haw, hb0, hbh, hc0, hcd⟩ := hq
  have e1 : i - a = g.width * ((b + g.height * c) - (j + g.height * k)) := by
    have : g.width * ((b + g.height * c) - (j + g.height * k)) =
        g.width * (b + g.height * c) - g.width * (j + g.height * k) := by ring
    rw [this]
    omega
  have z1 := factor_eq_zero (by omega) (by omega) e1
  have e2 : j - b = g.height * (c - k) := by
    have : g.height * (c - k) = g.height * c - g.height * k := by ring
    rw [this]
    omega
  have z2 := factor_eq_zero (by omega) (by omega) e2
  have hck : c = k := by omega
  have hbj : b = j := by
    rw [z2] at e2
    simp only [mul_zero] at e2
    omega
  have hai : a = i := by
    rw [z1] at e1
    simp only [mul_zero] at e1
    omega
  exact ⟨hai, hbj, hck⟩

/-- Writing the buffer at the offset of one in-range cell changes no read
at another index. -/
theorem operatorCall_set_other (g : Array3d T) (hv : g.Valid) (i j k a b c : Int) (w : T)
    (hp : g.InBounds i j k) (hne : ¬ (a = i ∧ b = j ∧ c = k)) :
    (operatorCall { g with _grid := g._grid.set (g._getFlatIndex i j k) w } a b c).1 =
      (g.operatorCall a b c).1 := by
  by_cases hq : g.InBounds a b c
  · have hfne : g._getFlatIndex i j k ≠ g._getFlatIndex a b c := by
      intro h
      exact hne (flatIndex_injective g hv i j k a b c hp hq h.symm)
    have hr : g._isIndexInRange a b c = true := (isIndexInRange_iff g a b c).2 hq
    have hr1 : _isIndexInRange
        { g with _grid := g._grid.set (g._getFlatIndex i j k) w } a b c = true := hr
    have hf1 : _getFlatIndex
        { g with _grid := g._grid.set (g._getFlatIndex i j k) w } a b c =
        g._getFlatIndex a b c := rfl
    unfold operatorCall
    simp only [hr, hr1, hf1, Bool.not_true, Bool.false_and, Bool.false_eq_true, if_false]
    rw [List.getElem?_set_ne hfne]
    cases g._grid[g._getFlatIndex a b c]? <;> rfl
  · have hq1 : ¬ InBounds { g with _grid := g._grid.set (g._getFlatIndex i j k) w } a b c := hq
    rw [operatorCall_of_not_inBounds g a b c hq, operatorCall_of_not_inBounds _ a b c hq1]
    cases hs : g._isOutOfRangeValueSet <;> rfl

end Array3d

/-- C11: on a valid grid, `set` at an in-range index `p = (i,j,k)` leaves the
read at every other in-range index `q = (a,b,c)` as it was, and leaves the
sentinel flag and value as they were; distinct in-range indices have distinct
buffer offsets. -/
theorem C11_set_point_update {T : Type} (g : Array3d T) (i j k a b c : Int) (v : T)
    (hv : g.Valid) (hp : g.InBounds i j k) (hq : g.InBounds a b c)
    (hne : ¬ (a = i ∧ b = j ∧ c = k)) :
    g._getFlatIndex a b c ≠ g._getFlatIndex i j k ∧
    ∃ g1 : Array3d T, g.set i j k v = (.ok (), g1) ∧
      (g1.operatorCall a b c).1 = (g.operatorCall a b c).1 ∧
      (∃ old, (g.operatorCall a b c).1 = .ok old) ∧
      g1._isOutOfRangeValueSet = g._isOutOfRangeValueSet ∧
      g1._outOfRangeValue = g._outOfRangeValue := by
  refine ⟨fun h => hne (Array3d.flatIndex_injective g hv i j k a b c hp hq h), _,
    Array3d.set_of_inBounds g i j k v hv hp,
    Array3d.operatorCall_set_other g hv i j k a b c v hp hne, ?_, rfl, rfl⟩
  obtain ⟨old, _, hread⟩ := Array3d.operatorCall_of_inBounds g a b c hv hq
  exact ⟨old, by rw [hread]⟩

theorem C11_set_point_update_witness :
    sampleGrid.Valid ∧ sampleGrid.InBounds 1 0 1 ∧ sampleGrid.InBounds 0 1 1 ∧
    ¬ ((0 : Int) = 1 ∧ (1 : Int) = 0 ∧ (1 : Int) = 1) ∧
    (sampleGrid._getFlatIndex 0 1 1 ≠ sampleGrid._getFlatIndex 1 0 1 ∧
    ∃ g1 : Array3d Int, sampleGrid.set 1 0 1 99 = (.ok (), g1) ∧
      (g1.operatorCall 0 1 1).1 = (sampleGrid.operatorCall 0 1 1).1 ∧
      (∃ old, (sampleGrid.operatorCall 0 1 1).1 = .ok old) ∧
      g1._isOutOfRangeValueSet = sampleGrid._isOutOfRangeValueSet ∧
      g1._outOfRangeValue = sampleGrid._outOfRangeValue) :=
  ⟨Array3d.valid_sampleGrid, by decide, by decide, by decide,
    C11_set_point_update sampleGrid 1 0 1 0 1 1 99 Array3d.valid_sampleGrid
      (by decide) (by decide) (by decide)⟩

/-! ## Accumulating into a cell -/

namespace Array3d

variable {T : Type}

end Array3d

/-- C12 fails on the code: assigning the sentinel-free `sampleGrid` to
`sampleGridSentinel` succeeds and copies dimensions and elements, but the
assigned grid still has its old sentinel configured, so its read at `(-1,0,0)`
returns `-7` where the same read of the right-hand side stops at the assertion. -/
theorem C12_assign_keeps_old_sentinel :
    (∃ r, (Array3d.assign (fun _ => 0) 0 sampleGridSentinel sampleGrid).1 = .ok r) ∧
    (Array3d.assign (fun _ => 0) 0 sampleGridSentinel sampleGrid).2._grid = sampleGrid._grid ∧
    (Array3d.assign (fun _ => 0) 0 sampleGridSentinel sampleGrid).2._isOutOfRangeValueSet
      = true ∧
    sampleGrid._isOutOfRangeValueSet = false ∧
    ((Array3d.assign (fun _ => 0) 0 sampleGridSentinel sampleGrid).2.operatorCall (-1) 0 0).1
      = .ok (-7) ∧
    (sampleGrid.operatorCall (-1) 0 0).1 = .error .assertion :=
  ⟨⟨_, rfl⟩, rfl, rfl, rfl, rfl, rfl⟩

/-- C13 fails on the code: after the no-argument `setOutOfRangeValue()` on a grid
with the sentinel `-7`, `isOutOfRangeValueSet()` still returns true and the read
at `(-1,0,0)` still returns the sentinel instead of stopping at the assertion;
the in-range elements are unchanged. -/
theorem C13_sentinel_not_cleared :
    sampleGridSentinel._isOutOfRangeValueSet = true ∧
    sampleGridSentinel.setOutOfRangeValueNoArg.1 = .ok () ∧
    sampleGridSentinel.setOutOfRangeValueNoArg.2.isOutOfRangeValueSet.1 = true ∧
    (sampleGridSentinel.setOutOfRangeValueNoArg.2.operatorCall (-1) 0 0).1 = .ok (-7) ∧
    sampleGridSentinel.setOutOfRangeValueNoArg.2._grid = sampleGridSentinel._grid :=
  ⟨rfl, rfl, rfl, rfl, rfl⟩

/-! ## fill and the fill constructor -/

namespace Array3d

variable {T : Type}

/-- On a valid grid `fill` succeeds, keeps the shape and the sentinel
configuration, and leaves `value` in every element of the buffer. -/
theorem fill_spec (g : Array3d T) (value : T) (hv : g.Valid) :
    (g.fill value).1 = .ok () ∧
    g.sameDims (g.fill value).2 ∧
    (g.fill value).2._grid.length = g._grid.length ∧
    (g.fill value).2._isOutOfRangeValueSet = g._isOutOfRangeValueSet ∧
    (g.fill value).2._outOfRangeValue = g._outOfRangeValue ∧
    (∀ n, n < g._grid.length → (g.fill value).2._grid[n]? = some value) := by
  have hv1 : numElements g.width g.height g.depth = some (g._grid.length : Int) := hv
  unfold fill
  rw [hv1]
  dsimp only
  rw [Int.toNat_natCast]
  have h := forRange_ok
    (fun idx (s : Array3d T) => g.sameDims s ∧ s._grid.length = g._grid.length ∧
      s._isOutOfRangeValueSet = g._isOutOfRangeValueSet ∧
      s._outOfRangeValue = g._outOfRangeValue ∧
      ∀ n, n < idx → s._grid[n]? = some value)
    (fillStep value) g._grid.length 0 g
    ⟨sameDims_refl g, rfl, rfl, rfl, fun n hn => absurd hn (Nat.not_lt_zero n)⟩ ?_
  · rw [Nat.zero_add] at h
    obtain ⟨hok, hd, hl, hf, ho, hall⟩ := h
    exact ⟨hok, hd, hl, hf, ho, hall⟩
  · intro idx t _ hidx ht
    obtain ⟨hd, hl, hf, ho, hall⟩ := ht
    have hlt : idx < t._grid.length := by omega
    unfold fillStep
    rw [if_pos hlt]
    refine ⟨rfl, hd, ?_, hf, ho, ?_⟩
    · show (t._grid.set idx value).length = g._grid.length
      rw [List.length_set, hl]
    · intro n hn
      show (t._grid.set idx value)[n]? = some value
      by_cases he : idx = n
      · subst he
        exact List.getElem?_set_self hlt
      · rw [List.getElem?_set_ne he]
        exact hall n (by omega)

/-- After `fill` every in-range read returns the fill value. -/
theorem operatorCall_fill (g : Array3d T) (value : T) (hv : g.Valid) (i j k : Int)
    (hb : g.InBounds i j k) :
    ((g.fill value).2.operatorCall i j k).1 = .ok value := by
  obtain ⟨_, hd, hl, _, _, hall⟩ := fill_spec g value hv
  have hfv : (g.fill value).2.Valid := valid_fill g value hv
  obtain ⟨hw, hh, hdp⟩ := hd
  have hb1 : (g.fill value).2.InBounds i j k := by
    unfold InBounds
    rw [hw, hh, hdp]
    exact hb
  obtain ⟨v, hval, hread⟩ := operatorCall_of_inBounds _ i j k hfv hb1
  have hlt := (flatIndex_of_inBounds _ i j k hfv hb1).2.1
  rw [hl] at hlt
  rw [hall _ hlt] at hval
  rw [hread, ← Option.some.inj hval]

theorem numElements_of_nonneg {i j k : Int} (hi : 0 ≤ i) (hj : 0 ≤ j) (hk : 0 ≤ k)
    (hij : i * j ≤ INT_MAX) (hijk : i * j * k ≤ INT_MAX) :
    numElements i j k = some (i * j * k) := by
  have h1 : 0 ≤ i * j := mul_nonneg hi hj
  have h2 : 0 ≤ i * j * k := mul_nonneg h1 hk
  have hmin : INT_MIN ≤ 0 := by decide
  unfold numElements imul
  rw [if_pos ⟨le_trans hmin h1, hij⟩]
  simp only [Option.bind]
  rw [if_pos ⟨le_trans hmin h2, hijk⟩]

end Array3d

/-- C15 amended: on a valid grid `fill(v)` succeeds and every in-range read afterwards
returns `v`; the constructor `Array3d(i, j, k, fillValue)` with non-negative
dimensions whose element count is a defined `int` succeeds and yields a valid
grid of dimensions `(i,j,k)` that reads `fillValue` at every in-range index and
has no sentinel configured. -/
theorem C15_fill_sets_every_cell {T : Type} (g : Array3d T) (v : T) (mem : Nat → T) (junk : T)
    (i j k : Int) (fillValue : T) (hv : g.Valid)
    (hi : 0 ≤ i) (hj : 0 ≤ j) (hk : 0 ≤ k)
    (hij : i * j ≤ INT_MAX) (hijk : i * j * k ≤ INT_MAX) :
    ((g.fill v).1 = .ok () ∧ g.sameDims (g.fill v).2 ∧
      ∀ a b c : Int, g.InBounds a b c → ((g.fill v).2.operatorCall a b c).1 = .ok v) ∧
    ((Array3d.newFill mem junk i j k fillValue).1 = .ok () ∧
      (Array3d.newFill mem junk i j k fillValue).2.Valid ∧
      (Array3d.newFill mem junk i j k fillValue).2.width = i ∧
      (Array3d.newFill mem junk i j k fillValue).2.height = j ∧
      (Array3d.newFill mem junk i j k fillValue).2.depth = k ∧
      (Array3d.newFill mem junk i j k fillValue).2._isOutOfRangeValueSet = false ∧
      ∀ a b c : Int, 0 ≤ a → a < i → 0 ≤ b → b < j → 0 ≤ c → c < k →
        ((Array3d.newFill mem junk i j k fillValue).2.operatorCall a b c).1 = .ok fillValue) := by
  constructor
  · exact ⟨(Array3d.fill_spec g v hv).1, (Array3d.fill_spec g v hv).2.1,
      fun a b c hb => Array3d.operatorCall_fill g v hv a b c hb⟩
  · have hn := Array3d.numElements_of_nonneg hi hj hk hij hijk
    have h0 : 0 ≤ i * j * k := mul_nonneg (mul_nonneg hi hj) hk
    obtain ⟨G1, hG1⟩ : ∃ G1 : Array3d T, G1 =
        { Array3d.fresh junk with width := i, height := j, depth := k,
                                  _grid := (List.range (i * j * k).toNat).map mem } := ⟨_, rfl⟩
    have hinit : Array3d._initializeGrid mem
        { Array3d.fresh junk with width := i, height := j, depth := k } = (.ok (), G1) := by
      unfold Array3d._initializeGrid
      dsimp only
      rw [hn]
      dsimp only
      rw [if_neg (by omega), hG1]
    have hw : G1.width = i := by rw [hG1]
    have hh : G1.height = j := by rw [hG1]
    have hd : G1.depth = k := by rw [hG1]
    have hf : G1._isOutOfRangeValueSet = false := by rw [hG1]; rfl
    have hG1v : G1.Valid := by
      unfold Array3d.Valid
      rw [hw, hh, hd, hn, hG1]
      dsimp only
      rw [List.length_map, List.length_range, Int.toNat_of_nonneg h0]
    have hnew : Array3d.newFill mem junk i j k fillValue = G1.fill fillValue := by
      unfold Array3d.newFill
      rw [hinit]
    rw [hnew]
    obtain ⟨hok, ⟨hw1, hh1, hd1⟩, _, hflag, _, _⟩ := Array3d.fill_spec G1 fillValue hG1v
    refine ⟨hok, Array3d.valid_fill G1 fillValue hG1v, by rw [hw1, hw], by rw [hh1, hh],
      by rw [hd1, hd], by rw [hflag, hf], ?_⟩
    intro a b c ha0 ha1 hb0 hb1 hc0 hc1
    refine Array3d.operatorCall_fill G1 fillValue hG1v a b c ?_
    unfold Array3d.InBounds
    rw [hw, hh, hd]
    exact ⟨ha0, ha1, hb0, hb1, hc0, hc1⟩

theorem C15_fill_sets_every_cell_witness :
    sampleGrid.Valid ∧
    ((sampleGrid.fill 3).1 = .ok () ∧
      ∀ a b c : Int, sampleGrid.InBounds a b c →
        ((sampleGrid.fill 3).2.operatorCall a b c).1 = .ok 3) ∧
    ((Array3d.newFill (fun n => (n : Int)) 0 2 3 1 9).1 = .ok () ∧
      (Array3d.newFill (fun n => (n : Int)) 0 2 3 1 9).2._isOutOfRangeValueSet = false ∧
      ∀ a b c : Int, 0 ≤ a → a < 2 → 0 ≤ b → b < 3 → 0 ≤ c → c < 1 →
        ((Array3d.newFill (fun n => (n : Int)) 0 2 3 1 9).2.operatorCall a b c).1 = .ok 9) :=
  ⟨Array3d.valid_sampleGrid,
    ⟨(C15_fill_sets_every_cell sampleGrid 3 (fun n => (n : Int)) 0 2 3 1 9
        Array3d.valid_sampleGrid (by decide) (by decide) (by decide) (by decide)
        (by decide)).1.1,
      (C15_fill_sets_every_cell sampleGrid 3 (fun n => (n : Int)) 0 2 3 1 9
        Array3d.valid_sampleGrid (by decide) (by decide) (by decide) (by decide)
        (by decide)).1.2.2⟩,
    ⟨(C15_fill_sets_every_cell sampleGrid 3 (fun n => (n : Int)) 0 2 3 1 9
        Array3d.valid_sampleGrid (by decide) (by decide) (by decide) (by decide)
        (by decide)).2.1,
      (C15_fill_sets_every_cell sampleGrid 3 (fun n => (n : Int)) 0 2 3 1 9
        Array3d.valid_sampleGrid (by decide) (by decide) (by decide) (by decide)
        (by decide)).2.2.2.2.2.2.1,
      (C15_fill_sets_every_cell sampleGrid 3 (fun n => (n : Int)) 0 2 3 1 9
        Array3d.valid_sampleGrid (by decide) (by decide) (by decide) (by decide)
        (by decide)).2.2.2.2.2.2.2⟩⟩

/-! ## Cell tests of the simulation -/

namespace FluidSimulation

theorem cellEquals_of_inBounds (grid : Array3d Int) (i j k : Int)
    (hv : grid.Valid) (hb : grid.InBounds i j k) :
    ∃ v, (grid.operatorCall i j k).1 = .ok v ∧
      ∀ value, cellEquals grid i j k value = .ok (v == value) := by
  obtain ⟨v, _, hread⟩ := Array3d.operatorCall_of_inBounds grid i j k hv hb
  refine ⟨v, by rw [hread], fun value => ?_⟩
  unfold cellEquals
  rw [hread]

theorem cellEquals_of_not_inBounds (grid : Array3d Int) (i j k value : Int)
    (hs : grid._isOutOfRangeValueSet = false) (hb : ¬ grid.InBounds i j k) :
    cellEquals grid i j k value = .error .assertion := by
  unfold cellEquals
  rw [Array3d.operatorCall_of_not_inBounds grid i j k hb, hs]
  rfl

theorem cellAtLeastOne_of_inBounds (grid : Array3d Int) (i j k : Int)
    (hv : grid.Valid) (hb : grid.InBounds i j k) :
    ∃ v, (grid.operatorCall i j k).1 = .ok v ∧
      cellAtLeastOne grid i j k = .ok (decide (v ≥ 1)) := by
  obtain ⟨v, _, hread⟩ := Array3d.operatorCall_of_inBounds grid i j k hv hb
  refine ⟨v, by rw [hread], ?_⟩
  unfold cellAtLeastOne
  rw [hread]

theorem cellEqualsG_eq (grid : Array3d Int) (i j k value : Int) :
    cellEqualsG grid ⟨i, j, k⟩ value = cellEquals grid i j k value := rfl

end FluidSimulation

/-- C16: for an in-range cell of a valid material grid the three predicates
return without fault, each is true exactly when the stored value is its material
code, exactly one is true when the stored value is one of `M_AIR`, `M_FLUID`,
`M_SOLID`, and for any stored value no two are true together; the three codes
are pairwise distinct. The `GridIndex` overloads return the same results. -/
theorem C16_material_predicates_partition (sim : FluidSimulation) (i j k : Int)
    (hv : sim._materialGrid.Valid) (hb : sim._materialGrid.InBounds i j k) :
    ∃ (v : Int) (a f s : Bool),
      (sim._materialGrid.operatorCall i j k).1 = .ok v ∧
      sim._isCellAir i j k = .ok a ∧ sim._isCellFluid i j k = .ok f ∧
      sim._isCellSolid i j k = .ok s ∧
      sim._isCellAirG ⟨i, j, k⟩ = .ok a ∧ sim._isCellFluidG ⟨i, j, k⟩ = .ok f ∧
      sim._isCellSolidG ⟨i, j, k⟩ = .ok s ∧
      (a = true ↔ v = FluidSimulation.M_AIR) ∧
      (f = true ↔ v = FluidSimulation.M_FLUID) ∧
      (s = true ↔ v = FluidSimulation.M_SOLID) ∧
      ((v = FluidSimulation.M_AIR ∨ v = FluidSimulation.M_FLUID ∨
          v = FluidSimulation.M_SOLID) →
        ((a = true ∧ f = false ∧ s = false) ∨ (a = false ∧ f = true ∧ s = false) ∨
          (a = false ∧ f = false ∧ s = true))) ∧
      ¬ (a = true ∧ f = true) ∧ ¬ (a = true ∧ s = true) ∧ ¬ (f = true ∧ s = true) ∧
      FluidSimulation.M_AIR ≠ FluidSimulation.M_FLUID ∧
      FluidSimulation.M_AIR ≠ FluidSimulation.M_SOLID ∧
      FluidSimulation.M_FLUID ≠ FluidSimulation.M_SOLID := by
  obtain ⟨v, hread, hcell⟩ := FluidSimulation.cellEquals_of_inBounds _ i j k hv hb
  refine ⟨v, v == FluidSimulation.M_AIR, v == FluidSimulation.M_FLUID,
    v == FluidSimulation.M_SOLID, hread, hcell _, hcell _, hcell _, ?_, ?_, ?_,
    beq_iff_eq, beq_iff_eq, beq_iff_eq, ?_, ?_, ?_, ?_, by decide, by decide, by decide⟩
  · exact (FluidSimulation.cellEqualsG_eq _ i j k _).trans (hcell _)
  · exact (FluidSimulation.cellEqualsG_eq _ i j k _).trans (hcell _)
  · exact (FluidSimulation.cellEqualsG_eq _ i j k _).trans (hcell _)
  · simp only [FluidSimulation.M_AIR, FluidSimulation.M_FLUID, FluidSimulation.M_SOLID,
      beq_iff_eq, beq_eq_false_iff_ne, ne_eq]
    omega
  · simp only [FluidSimulation.M_AIR, FluidSimulation.M_FLUID, beq_iff_eq]
    omega
  · simp only [FluidSimulation.M_AIR, FluidSimulation.M_SOLID, beq_iff_eq]
    omega
  · simp only [FluidSimulation.M_FLUID, FluidSimulation.M_SOLID, beq_iff_eq]
    omega

theorem C16_material_predicates_partition_witness :
    sampleSimulation._materialGrid.Valid ∧ sampleSimulation._materialGrid.InBounds 1 0 0 ∧
    sampleSimulation._isCellFluid 1 0 0 = .ok true ∧
    ∃ (v : Int) (a f s : Bool),
      (sampleSimulation._materialGrid.operatorCall 1 0 0).1 = .ok v ∧
      sampleSimulation._isCellAir 1 0 0 = .ok a ∧ sampleSimulation._isCellFluid 1 0 0 = .ok f ∧
      sampleSimulation._isCellSolid 1 0 0 = .ok s ∧
      sampleSimulation._isCellAirG ⟨1, 0, 0⟩ = .ok a ∧
      sampleSimulation._isCellFluidG ⟨1, 0, 0⟩ = .ok f ∧
      sampleSimulation._isCellSolidG ⟨1, 0, 0⟩ = .ok s ∧
      (a = true ↔ v = FluidSimulation.M_AIR) ∧
      (f = true ↔ v = FluidSimulation.M_FLUID) ∧
      (s = true ↔ v = FluidSimulation.M_SOLID) ∧
      ((v = FluidSimulation.M_AIR ∨ v = FluidSimulation.M_FLUID ∨
          v = FluidSimulation.M_SOLID) →
        ((a = true ∧ f = false ∧ s = false) ∨ (a = false ∧ f = true ∧ s = false) ∨
          (a = false ∧ f = false ∧ s = true))) ∧
      ¬ (a = true ∧ f = true) ∧ ¬ (a = true ∧ s = true) ∧ ¬ (f = true ∧ s = true) ∧
      FluidSimulation.M_AIR ≠ FluidSimulation.M_FLUID ∧
      FluidSimulation.M_AIR ≠ FluidSimulation.M_SOLID ∧
      FluidSimulation.M_FLUID ≠ FluidSimulation.M_SOLID :=
  ⟨by decide, by decide, rfl,
    C16_material_predicates_partition sampleSimulation 1 0 0 (by decide) (by decide)⟩

/-! ## Face tests on the staggered grid -/

namespace FluidSimulation

/-- The shape shared by the face tests along one axis: at the far end only the
previous cell is read, in the interior the current cell and then the previous
one, at the near end only the current cell. -/
theorem faceTest_spec {x X : Int} {cur prev : Except Fault Bool} {Pc Pp : Prop}
    (hX : 0 < X) (h0 : 0 ≤ x) (h1 : x ≤ X)
    (hc : x < X → ∃ b, cur = .ok b ∧ (b = true ↔ Pc))
    (hp : 0 < x → ∃ b, prev = .ok b ∧ (b = true ↔ Pp))
    (hcn : x = X → ¬ Pc) (hpn : x = 0 → ¬ Pp) :
    ∃ b, (if x = X then prev else if x > 0 then shortCircuitOr cur prev else cur) = .ok b ∧
      (b = true ↔ (Pp ∨ Pc)) := by
  by_cases hxX : x = X
  · rw [if_pos hxX]
    obtain ⟨b, hb, hiff⟩ := hp (by omega)
    refine ⟨b, hb, hiff.trans ⟨Or.inl, fun h => h.elim id (fun h => absurd h (hcn hxX))⟩⟩
  · rw [if_neg hxX]
    by_cases hpos : x > 0
    · rw [if_pos hpos]
      obtain ⟨bc, hbc, hciff⟩ := hc (by omega)
      obtain ⟨bp, hbp, hpiff⟩ := hp hpos
      rw [hbc, hbp]
      cases bc with
      | true => exact ⟨true, rfl, ⟨fun _ => Or.inr (hciff.1 rfl), fun _ => rfl⟩⟩
      | false =>
        refine ⟨bp, rfl, hpiff.trans ⟨Or.inl, fun h => h.elim id (fun h => ?_)⟩⟩
        exact absurd (hciff.2 h) (by simp)
    · rw [if_neg hpos]
      obtain ⟨b, hb, hiff⟩ := hc (by omega)
      refine ⟨b, hb, hiff.trans ⟨Or.inr, fun h => h.elim (fun h => ?_) id⟩⟩
      exact absurd h (hpn (by omega))

theorem cellEquals_iff_stores (grid : Array3d Int) (i j k value : Int)
    (hv : grid.Valid) (hb : grid.InBounds i j k) :
    ∃ b, cellEquals grid i j k value = .ok b ∧ (b = true ↔ Stores grid i j k value) := by
  obtain ⟨v, hread, hcell⟩ := cellEquals_of_inBounds grid i j k hv hb
  refine ⟨v == value, hcell value, ?_⟩
  unfold Stores
  rw [hread, beq_iff_eq]
  constructor
  · intro h
    exact ⟨hb, by rw [h]⟩
  · intro h
    exact Except.ok.inj h.2

theorem cellAtLeastOne_iff_stores (grid : Array3d Int) (i j k : Int)
    (hv : grid.Valid) (hb : grid.InBounds i j k) :
    ∃ b, cellAtLeastOne grid i j k = .ok b ∧
      (b = true ↔ ∃ L : Int, L ≥ 1 ∧ Stores grid i j k L) := by
  obtain ⟨v, hread, hcell⟩ := cellAtLeastOne_of_inBounds grid i j k hv hb
  refine ⟨decide (v ≥ 1), hcell, ?_⟩
  unfold Stores
  rw [hread, decide_eq_true_eq]
  constructor
  · intro h
    exact ⟨v, h, hb, rfl⟩
  · rintro ⟨L, hL, _, hv1⟩
    rw [Except.ok.inj hv1]
    exact hL

theorem not_stores_of_not_inBounds (grid : Array3d Int) (i j k value : Int)
    (hb : ¬ grid.InBounds i j k) : ¬ Stores grid i j k value :=
  fun h => hb h.1

theorem faceBorderingU_spec (grid : Array3d Int) (i j k value : Int)
    (hv : grid.Valid) (hw : 0 < grid.width) (hf : FaceU grid i j k) :
    ∃ b, _isFaceBorderingGridValueU i j k value grid = .ok b ∧
      (b = true ↔ (Stores grid (i - 1) j k value ∨ Stores grid i j k value)) := by
  obtain ⟨h0, h1, hj0, hj1, hk0, hk1⟩ := hf
  unfold _isFaceBorderingGridValueU
  refine faceTest_spec hw h0 h1
    (fun hlt => cellEquals_iff_stores grid i j k value hv ⟨h0, hlt, hj0, hj1, hk0, hk1⟩)
    (fun hpos => cellEquals_iff_stores grid (i - 1) j k value hv
      ⟨by omega, by omega, hj0, hj1, hk0, hk1⟩)
    (fun he => not_stores_of_not_inBounds grid i j k value (fun hb => ?_))
    (fun he => not_stores_of_not_inBounds grid (i - 1) j k value (fun hb => ?_))
  · have := hb.2.1
    omega
  · have := hb.1
    omega

theorem faceBorderingV_spec (grid : Array3d Int) (i j k value : Int)
    (hv : grid.Valid) (hh : 0 < grid.height) (hf : FaceV grid i j k) :
    ∃ b, _isFaceBorderingGridValueV i j k value grid = .ok b ∧
      (b = true ↔ (Stores grid i (j - 1) k value ∨ Stores grid i j k value)) := by
  obtain ⟨hi0, hi1, h0, h1, hk0, hk1⟩ := hf
  unfold _isFaceBorderingGridValueV
  refine faceTest_spec hh h0 h1
    (fun hlt => cellEquals_iff_stores grid i j k value hv ⟨hi0, hi1, h0, hlt, hk0, hk1⟩)
    (fun hpos => cellEquals_iff_stores grid i (j - 1) k value hv
      ⟨hi0, hi1, by omega, by omega, hk0, hk1⟩)
    (fun he => not_stores_of_not_inBounds grid i j k value (fun hb => ?_))
    (fun he => not_stores_of_not_inBounds grid i (j - 1) k value (fun hb => ?_))
  · have := hb.2.2.2.1
    omega
  · have := hb.2.2.1
    omega

theorem faceBorderingW_spec (grid : Array3d Int) (i j k value : Int)
    (hv : grid.Valid) (hd : 0 < grid.depth) (hf : FaceW grid i j k) :
    ∃ b, _isFaceBorderingGridValueW i j k value grid = .ok b ∧
      (b = true ↔ (Stores grid i j (k - 1) value ∨ Stores grid i j k value)) := by
  obtain ⟨hi0, hi1, hj0, hj1, h0, h1⟩ := hf
  unfold _isFaceBorderingGridValueW
  refine faceTest_spec hd h0 h1
    (fun hlt => cellEquals_iff_stores grid i j k value hv ⟨hi0, hi1, hj0, hj1, h0, hlt⟩)
    (fun hpos => cellEquals_iff_stores grid i j (k - 1) value hv
      ⟨hi0, hi1, hj0, hj1, by omega, by omega⟩)
    (fun he => not_stores_of_not_inBounds grid i j k value (fun hb => ?_))
    (fun he => not_stores_of_not_inBounds grid i j (k - 1) value (fun hb => ?_))
  · have := hb.2.2.2.2.2
    omega
  · have := hb.2.2.2.2.1
    omega

end FluidSimulation

/-- C17: on a valid integer grid with positive dimensions and no sentinel, where
every out-of-range read stops at the assertion, `_isFaceBorderingGridValueU`
returns a value at every U-face index `0<=i<=width, 0<=j<height, 0<=k<depth` (so
it performed no out-of-range read), and that value is true exactly when one of
the cells `(i-1,j,k)`, `(i,j,k)` lies in the grid and stores `value`; likewise
for V along `j` and W along `k`. -/
theorem C17_face_bordering_value (grid : Array3d Int) (value i j k : Int)
    (hv : grid.Valid) (hs : grid._isOutOfRangeValueSet = false)
    (hw : 0 < grid.width) (hh : 0 < grid.height) (hd : 0 < grid.depth) :
    (∀ a b c : Int, ¬ grid.InBounds a b c →
      (grid.operatorCall a b c).1 = .error .assertion) ∧
    (FluidSimulation.FaceU grid i j k →
      ∃ r, FluidSimulation._isFaceBorderingGridValueU i j k value grid = .ok r ∧
        (r = true ↔ (FluidSimulation.Stores grid (i - 1) j k value ∨
          FluidSimulation.Stores grid i j k value))) ∧
    (FluidSimulation.FaceV grid i j k →
      ∃ r, FluidSimulation._isFaceBorderingGridValueV i j k value grid = .ok r ∧
        (r = true ↔ (FluidSimulation.Stores grid i (j - 1) k value ∨
          FluidSimulation.Stores grid i j k value))) ∧
    (FluidSimulation.FaceW grid i j k →
      ∃ r, FluidSimulation._isFaceBorderingGridValueW i j k value grid = .ok r ∧
        (r = true ↔ (FluidSimulation.Stores grid i j (k - 1) value ∨
          FluidSimulation.Stores grid i j k value))) := by
  refine ⟨?_, FluidSimulation.faceBorderingU_spec grid i j k value hv hw,
    FluidSimulation.faceBorderingV_spec grid i j k value hv hh,
    FluidSimulation.faceBorderingW_spec grid i j k value hv hd⟩
  intro a b c hb
  rw [Array3d.operatorCall_of_not_inBounds grid a b c hb, hs]
  rfl

theorem C17_face_bordering_value_witness :
    sampleLayerGrid.Valid ∧ sampleLayerGrid._isOutOfRangeValueSet = false ∧
    FluidSimulation.FaceU sampleLayerGrid 2 0 0 ∧
    ∃ r, FluidSimulation._isFaceBorderingGridValueU 2 0 0 1 sampleLayerGrid = .ok r ∧
      (r = true ↔ (FluidSimulation.Stores sampleLayerGrid (2 - 1) 0 0 1 ∨
        FluidSimulation.Stores sampleLayerGrid 2 0 0 1)) :=
  ⟨by decide, rfl, by decide,
    (C17_face_bordering_value sampleLayerGrid 1 2 0 0 (by decide) rfl (by decide) (by decide)
      (by decide)).2.1 (by decide)⟩

/-! ## Failing face tests and extrapolated faces -/

namespace FluidSimulation

theorem shortCircuitOr_error (e : Fault) (b : Except Fault Bool) :
    shortCircuitOr (.error e) b = .error e := rfl

theorem faceBorderingU_invalid (grid : Array3d Int) (i j k value : Int)
    (hs : grid._isOutOfRangeValueSet = false) (hf : ¬ FaceU grid i j k) :
    _isFaceBorderingGridValueU i j k value grid = .error .assertion := by
  unfold _isFaceBorderingGridValueU
  by_cases h1 : i = grid.width
  · rw [if_pos h1]
    refine cellEquals_of_not_inBounds grid (i - 1) j k value hs (fun hb => hf ?_)
    obtain ⟨a0, a1, b0, b1, c0, c1⟩ := hb
    exact ⟨by omega, by omega, b0, b1, c0, c1⟩
  · rw [if_neg h1]
    have hcur : cellEquals grid i j k value = .error .assertion := by
      refine cellEquals_of_not_inBounds grid i j k value hs (fun hb => hf ?_)
      obtain ⟨a0, a1, b0, b1, c0, c1⟩ := hb
      exact ⟨a0, by omega, b0, b1, c0, c1⟩
    by_cases hpos : i > 0
    · rw [if_pos hpos, hcur]
      rfl
    · rw [if_neg hpos]
      exact hcur

theorem faceBorderingU_true_iff (grid : Array3d Int) (i j k value : Int)
    (hv : grid.Valid) (hw : 0 < grid.width) (hf : FaceU grid i j k) :
    _isFaceBorderingLayerIndexU i j k value grid = .ok true ↔
      (Stores grid (i - 1) j k value ∨ Stores grid i j k value) := by
  obtain ⟨b, hb, hiff⟩ := faceBorderingU_spec grid i j k value hv hw hf
  unfold _isFaceBorderingLayerIndexU
  rw [hb]
  constructor
  · intro h
    exact hiff.1 (Except.ok.inj h)
  · intro h
    rw [hiff.2 h]

theorem faceExtrapolatedU_spec (sim : FluidSimulation) (grid : Array3d Int) (i j k : Int)
    (hv : grid.Valid) (hsz : grid.width = sim._isize) (hw : 0 < sim._isize)
    (hf : FaceU grid i j k) :
    ∃ b, _isFaceVelocityExtrapolatedU sim i j k grid = .ok b ∧
      (b = true ↔ ((∃ L : Int, L ≥ 1 ∧ Stores grid (i - 1) j k L) ∨
        (∃ L : Int, L ≥ 1 ∧ Stores grid i j k L))) := by
  obtain ⟨h0, h1, hj0, hj1, hk0, hk1⟩ := hf
  rw [hsz] at h1
  unfold _isFaceVelocityExtrapolatedU
  refine faceTest_spec hw h0 h1
    (fun hlt => cellAtLeastOne_iff_stores grid i j k hv (by
      rw [← hsz] at hlt
      exact ⟨h0, hlt, hj0, hj1, hk0, hk1⟩))
    (fun hpos => cellAtLeastOne_iff_stores grid (i - 1) j k hv (by
      rw [← hsz] at h1
      exact ⟨by omega, by omega, hj0, hj1, hk0, hk1⟩))
    (fun he => ?_) (fun he => ?_)
  · rintro ⟨L, _, hb, _⟩
    have := hb.2.1
    omega
  · rintro ⟨L, _, hb, _⟩
    have := hb.1
    omega

theorem faceBorderingV_true_iff (grid : Array3d Int) (i j k value : Int)
    (hv : grid.Valid) (hh : 0 < grid.height) (hf : FaceV grid i j k) :
    _isFaceBorderingLayerIndexV i j k value grid = .ok true ↔
      (Stores grid i (j - 1) k value ∨ Stores grid i j k value) := by
  obtain ⟨b, hb, hiff⟩ := faceBorderingV_spec grid i j k value hv hh hf
  unfold _isFaceBorderingLayerIndexV
  rw [hb]
  constructor
  · intro h
    exact hiff.1 (Except.ok.inj h)
  · intro h
    rw [hiff.2 h]

theorem faceExtrapolatedV_spec (sim : FluidSimulation) (grid : Array3d Int) (i j k : Int)
    (hv : grid.Valid) (hsz : grid.height = sim._jsize) (hh : 0 < sim._jsize)
    (hf : FaceV grid i j k) :
    ∃ b, _isFaceVelocityExtrapolatedV sim i j k grid = .ok b ∧
      (b = true ↔ ((∃ L : Int, L ≥ 1 ∧ Stores grid i (j - 1) k L) ∨
        (∃ L : Int, L ≥ 1 ∧ Stores grid i j k L))) := by
  obtain ⟨hi0, hi1, h0, h1, hk0, hk1⟩ := hf
  rw [hsz] at h1
  unfold _isFaceVelocityExtrapolatedV
  refine faceTest_spec hh h0 h1
    (fun hlt => cellAtLeastOne_iff_stores grid i j k hv (by
      rw [← hsz] at hlt
      exact ⟨hi0, hi1, h0, hlt, hk0, hk1⟩))
    (fun hpos => cellAtLeastOne_iff_stores grid i (j - 1) k hv (by
      rw [← hsz] at h1
      exact ⟨hi0, hi1, by omega, by omega, hk0, hk1⟩))
    (fun he => ?_) (fun he => ?_)
  · rintro ⟨L, _, hb, _⟩
    have := hb.2.2.2.1
    omega
  · rintro ⟨L, _, hb, _⟩
    have := hb.2.2.1
    omega

theorem faceBorderingW_true_iff (grid : Array3d Int) (i j k value : Int)
    (hv : grid.Valid) (hd : 0 < grid.depth) (hf : FaceW grid i j k) :
    _isFaceBorderingLayerIndexW i j k value grid = .ok true ↔
      (Stores grid i j (k - 1) value ∨ Stores grid i j k value) := by
  obtain ⟨b, hb, hiff⟩ := faceBorderingW_spec grid i j k value hv hd hf
  unfold _isFaceBorderingLayerIndexW
  rw [hb]
  constructor
  · intro h
    exact hiff.1 (Except.ok.inj h)
  · intro h
    rw [hiff.2 h]

theorem faceExtrapolatedW_spec (sim : FluidSimulation) (grid : Array3d Int) (i j k : Int)
    (hv : grid.Valid) (hsz : grid.depth = sim._ksize) (hd : 0 < sim._ksize)
    (hf : FaceW grid i j k) :
    ∃ b, _isFaceVelocityExtrapolatedW sim i j k grid = .ok b ∧
      (b = true ↔ ((∃ L : Int, L ≥ 1 ∧ Stores grid i j (k - 1) L) ∨
        (∃ L : Int, L ≥ 1 ∧ Stores grid i j k L))) := by
  obtain ⟨hi0, hi1, hj0, hj1, h0, h1⟩ := hf
  rw [hsz] at h1
  unfold _isFaceVelocityExtrapolatedW
  refine faceTest_spec hd h0 h1
    (fun hlt => cellAtLeastOne_iff_stores grid i j k hv (by
      rw [← hsz] at hlt
      exact ⟨hi0, hi1, hj0, hj1, h0, hlt⟩))
    (fun hpos => cellAtLeastOne_iff_stores grid i j (k - 1) hv (by
      rw [← hsz] at h1
      exact ⟨hi0, hi1, hj0, hj1, by omega, by omega⟩))
    (fun he => ?_) (fun he => ?_)
  · rintro ⟨L, _, hb, _⟩
    have := hb.2.2.2.2.2
    omega
  · rintro ⟨L, _, hb, _⟩
    have := hb.2.2.2.2.1
    omega

end FluidSimulation

/-- C18: on a valid integer grid with no sentinel and positive width (a grid
with a valid face has positive height and depth as well),
`_isFaceBorderingGridValueU(i,j,k,value,grid)` faults if and only if the face
index is outside `0<=i<=width, 0<=j<height, 0<=k<depth`; the fault is the
assertion of an out-of-range grid read, and for a valid face a value is
returned. -/
theorem C18_face_bordering_fails_iff (grid : Array3d Int) (value i j k : Int)
    (hv : grid.Valid) (hs : grid._isOutOfRangeValueSet = false)
    (hw : 0 < grid.width) :
    ((∃ e, FluidSimulation._isFaceBorderingGridValueU i j k value grid = .error e) ↔
      ¬ FluidSimulation.FaceU grid i j k) ∧
    (¬ FluidSimulation.FaceU grid i j k →
      FluidSimulation._isFaceBorderingGridValueU i j k value grid = .error .assertion) ∧
    (FluidSimulation.FaceU grid i j k →
      ∃ r, FluidSimulation._isFaceBorderingGridValueU i j k value grid = .ok r) := by
  have hbad := FluidSimulation.faceBorderingU_invalid grid i j k value hs
  have hgood : FluidSimulation.FaceU grid i j k →
      ∃ r, FluidSimulation._isFaceBorderingGridValueU i j k value grid = .ok r := by
    intro hf
    obtain ⟨r, hr, _⟩ := FluidSimulation.faceBorderingU_spec grid i j k value hv hw hf
    exact ⟨r, hr⟩
  refine ⟨⟨?_, fun hf => ⟨_, hbad hf⟩⟩, hbad, hgood⟩
  rintro ⟨e, he⟩ hf
  obtain ⟨r, hr⟩ := hgood hf
  rw [hr] at he
  exact absurd he (by simp)

theorem C18_face_bordering_fails_iff_witness :
    sampleLayerGrid.Valid ∧ ¬ FluidSimulation.FaceU sampleLayerGrid 3 0 0 ∧
    FluidSimulation._isFaceBorderingGridValueU 3 0 0 1 sampleLayerGrid = .error .assertion :=
  ⟨by decide, by decide,
    (C18_face_bordering_fails_iff sampleLayerGrid 1 3 0 0 (by decide) rfl
      (by decide)).2.1 (by decide)⟩

/-- C20: for a valid layer grid whose dimensions equal the simulation's
`(_isize,_jsize,_ksize)`, all positive, and every valid U-face index,
`_isFaceVelocityExtrapolatedU` returns a value, which is true if and only if
`_isFaceBorderingLayerIndexU` is true for some layer `L >= 1`, that is, if and
only if a cell adjacent to the face inside the grid stores a layer index
`>= 1`; likewise for V and W. -/
theorem C20_extrapolated_face_iff_layer (sim : FluidSimulation) (layerGrid : Array3d Int)
    (i j k : Int) (hv : layerGrid.Valid)
    (hsw : layerGrid.width = sim._isize) (hsh : layerGrid.height = sim._jsize)
    (hsd : layerGrid.depth = sim._ksize)
    (hw : 0 < sim._isize) (hh : 0 < sim._jsize) (hd : 0 < sim._ksize) :
    (FluidSimulation.FaceU layerGrid i j k →
      ∃ r, FluidSimulation._isFaceVelocityExtrapolatedU sim i j k layerGrid = .ok r ∧
        (r = true ↔ ∃ L : Int, L ≥ 1 ∧
          FluidSimulation._isFaceBorderingLayerIndexU i j k L layerGrid = .ok true) ∧
        (r = true ↔ ∃ L : Int, L ≥ 1 ∧
          (FluidSimulation.Stores layerGrid (i - 1) j k L ∨
            FluidSimulation.Stores layerGrid i j k L))) ∧
    (FluidSimulation.FaceV layerGrid i j k →
      ∃ r, FluidSimulation._isFaceVelocityExtrapolatedV sim i j k layerGrid = .ok r ∧
        (r = true ↔ ∃ L : Int, L ≥ 1 ∧
          FluidSimulation._isFaceBorderingLayerIndexV i j k L layerGrid = .ok true) ∧
        (r = true ↔ ∃ L : Int, L ≥ 1 ∧
          (FluidSimulation.Stores layerGrid i (j - 1) k L ∨
            FluidSimulation.Stores layerGrid i j k L))) ∧
    (FluidSimulation.FaceW layerGrid i j k →
      ∃ r, FluidSimulation._isFaceVelocityExtrapolatedW sim i j k layerGrid = .ok r ∧
        (r = true ↔ ∃ L : Int, L ≥ 1 ∧
          FluidSimulation._isFaceBorderingLayerIndexW i j k L layerGrid = .ok true) ∧
        (r = true ↔ ∃ L : Int, L ≥ 1 ∧
          (FluidSimulation.Stores layerGrid i j (k - 1) L ∨
            FluidSimulation.Stores layerGrid i j k L))) := by
  refine ⟨?_, ?_, ?_⟩
  · intro hf
    obtain ⟨r, hr, hiff⟩ :=
      FluidSimulation.faceExtrapolatedU_spec sim layerGrid i j k hv hsw hw hf
    have hcell : r = true ↔ ∃ L : Int, L ≥ 1 ∧
        (FluidSimulation.Stores layerGrid (i - 1) j k L ∨
          FluidSimulation.Stores layerGrid i j k L) := by
      rw [hiff]
      constructor
      · rintro (⟨L, hL, h⟩ | ⟨L, hL, h⟩)
        · exact ⟨L, hL, Or.inl h⟩
        · exact ⟨L, hL, Or.inr h⟩
      · rintro ⟨L, hL, h | h⟩
        · exact Or.inl ⟨L, hL, h⟩
        · exact Or.inr ⟨L, hL, h⟩
    refine ⟨r, hr, ?_, hcell⟩
    rw [hcell]
    constructor
    · rintro ⟨L, hL, h⟩
      exact ⟨L, hL, (FluidSimulation.faceBorderingU_true_iff layerGrid i j k L hv
        (by rw [hsw]; exact hw) hf).2 h⟩
    · rintro ⟨L, hL, h⟩
      exact ⟨L, hL, (FluidSimulation.faceBorderingU_true_iff layerGrid i j k L hv
        (by rw [hsw]; exact hw) hf).1 h⟩
  · intro hf
    obtain ⟨r, hr, hiff⟩ :=
      FluidSimulation.faceExtrapolatedV_spec sim layerGrid i j k hv hsh hh hf
    have hcell : r = true ↔ ∃ L : Int, L ≥ 1 ∧
        (FluidSimulation.Stores layerGrid i (j - 1) k L ∨
          FluidSimulation.Stores layerGrid i j k L) := by
      rw [hiff]
      constructor
      · rintro (⟨L, hL, h⟩ | ⟨L, hL, h⟩)
        · exact ⟨L, hL, Or.inl h⟩
        · exact ⟨L, hL, Or.inr h⟩
      · rintro ⟨L, hL, h | h⟩
        · exact Or.inl ⟨L, hL, h⟩
        · exact Or.inr ⟨L, hL, h⟩
    refine ⟨r, hr, ?_, hcell⟩
    rw [hcell]
    constructor
    · rintro ⟨L, hL, h⟩
      exact ⟨L, hL, (FluidSimulation.faceBorderingV_true_iff layerGrid i j k L hv
        (by rw [hsh]; exact hh) hf).2 h⟩
    · rintro ⟨L, hL, h⟩
      exact ⟨L, hL, (FluidSimulation.faceBorderingV_true_iff layerGrid i j k L hv
        (by rw [hsh]; exact hh) hf).1 h⟩
  · intro hf
    obtain ⟨r, hr, hiff⟩ :=
      FluidSimulation.faceExtrapolatedW_spec sim layerGrid i j k hv hsd hd hf
    have hcell : r = true ↔ ∃ L : Int, L ≥ 1 ∧
        (FluidSimulation.Stores layerGrid i j (k - 1) L ∨
          FluidSimulation.Stores layerGrid i j k L) := by
      rw [hiff]
      constructor
      · rintro (⟨L, hL, h⟩ | ⟨L, hL, h⟩)
        · exact ⟨L, hL, Or.inl h⟩
        · exact ⟨L, hL, Or.inr h⟩
      · rintro ⟨L, hL, h | h⟩
        · exact Or.inl ⟨L, hL, h⟩
        · exact Or.inr ⟨L, hL, h⟩
    refine ⟨r, hr, ?_, hcell⟩
    rw [hcell]
    constructor
    · rintro ⟨L, hL, h⟩
      exact ⟨L, hL, (FluidSimulation.faceBorderingW_true_iff layerGrid i j k L hv
        (by rw [hsd]; exact hd) hf).2 h⟩
    · rintro ⟨L, hL, h⟩
      exact ⟨L, hL, (FluidSimulation.faceBorderingW_true_iff layerGrid i j k L hv
        (by rw [hsd]; exact hd) hf).1 h⟩

theorem C20_extrapolated_face_iff_layer_witness :
    sampleLayerGrid.Valid ∧ FluidSimulation.FaceU sampleLayerGrid 1 0 0 ∧
    ∃ r, FluidSimulation._isFaceVelocityExtrapolatedU sampleSimulation 1 0 0 sampleLayerGrid
        = .ok r ∧
      (r = true ↔ ∃ L : Int, L ≥ 1 ∧
        FluidSimulation._isFaceBorderingLayerIndexU 1 0 0 L sampleLayerGrid = .ok true) ∧
      (r = true ↔ ∃ L : Int, L ≥ 1 ∧
        (FluidSimulation.Stores sampleLayerGrid (1 - 1) 0 0 L ∨
          FluidSimulation.Stores sampleLayerGrid 1 0 0 L)) :=
  ⟨by decide, by decide,
    (C20_extrapolated_face_iff_layer sampleSimulation sampleLayerGrid 1 0 0 (by decide)
      rfl rfl rfl (by decide) (by decide) (by decide)).1 (by decide)⟩

/-! ## The hat kernel -/

namespace SparseImplicitSurfaceScalarField

theorem hatFunc_closed_form {F : Type} [LinearOrderedField F] (r : F) :
    _hatFunc r = max 0 (1 - |r|) := by
  unfold _hatFunc
  rcases le_total 0 r with h | h
  · rw [abs_of_nonneg h]
    by_cases h1 : r ≤ 1
    · rw [if_pos ⟨h, h1⟩, max_eq_right (by linarith)]
    · rw [if_neg (fun hh => h1 hh.2), if_neg (fun hh => h1 (by linarith [hh.2])),
        max_eq_left (by linarith [lt_of_not_le h1])]
  · rw [abs_of_nonpos h]
    by_cases h0 : r = 0
    · subst h0
      simp
    · have hneg : r < 0 := lt_of_le_of_ne h h0
      rw [if_neg (fun hh => absurd hh.1 (not_le.2 hneg))]
      by_cases h1 : -1 ≤ r
      · rw [if_pos ⟨h1, h⟩, max_eq_right (by linarith)]
        ring
      · rw [if_neg (fun hh => h1 hh.1), max_eq_left (by linarith [lt_of_not_le h1])]

end SparseImplicitSurfaceScalarField

/-- C19: in exact arithmetic `_hatFunc(r) = max(0, 1 - |r|)`; hence
`0 <= _hatFunc(r) <= 1`, `_hatFunc(-r) = _hatFunc(r)`, `_hatFunc(0) = 1`,
`_hatFunc(r) = 0` whenever `|r| >= 1`, and for `r` in `[0,1]` the two
neighbouring weights sum to one: `_hatFunc(r) + _hatFunc(r - 1) = 1`. -/
theorem C19_hat_kernel_closed_form {F : Type} [LinearOrderedField F] (r : F) :
    SparseImplicitSurfaceScalarField._hatFunc r = max 0 (1 - |r|) ∧
    0 ≤ SparseImplicitSurfaceScalarField._hatFunc r ∧
    SparseImplicitSurfaceScalarField._hatFunc r ≤ 1 ∧
    SparseImplicitSurfaceScalarField._hatFunc (-r) =
      SparseImplicitSurfaceScalarField._hatFunc r ∧
    SparseImplicitSurfaceScalarField._hatFunc (0 : F) = 1 ∧
    (|r| ≥ 1 → SparseImplicitSurfaceScalarField._hatFunc r = 0) ∧
    (0 ≤ r → r ≤ 1 →
      SparseImplicitSurfaceScalarField._hatFunc r +
        SparseImplicitSurfaceScalarField._hatFunc (r - 1) = 1) := by
  have habs : 0 ≤ |r| := abs_nonneg r
  refine ⟨SparseImplicitSurfaceScalarField.hatFunc_closed_form r, ?_, ?_, ?_, ?_, ?_, ?_⟩
  · rw [SparseImplicitSurfaceScalarField.hatFunc_closed_form]
    exact le_max_left _ _
  · rw [SparseImplicitSurfaceScalarField.hatFunc_closed_form]
    exact max_le zero_le_one (by linarith)
  · rw [SparseImplicitSurfaceScalarField.hatFunc_closed_form,
      SparseImplicitSurfaceScalarField.hatFunc_closed_form r, abs_neg]
  · rw [SparseImplicitSurfaceScalarField.hatFunc_closed_form, abs_zero, sub_zero]
    exact max_eq_right zero_le_one
  · intro h
    rw [SparseImplicitSurfaceScalarField.hatFunc_closed_form]
    exact max_eq_left (by linarith)
  · intro h0 h1
    rw [SparseImplicitSurfaceScalarField.hatFunc_closed_form,
      SparseImplicitSurfaceScalarField.hatFunc_closed_form (r - 1),
      abs_of_nonneg h0, abs_of_nonpos (by linarith : r - 1 ≤ 0),
      max_eq_right (by linarith), max_eq_right (by linarith)]
    ring

theorem C19_hat_kernel_closed_form_witness :
    (0 : ℚ) ≤ 1 / 2 ∧ (1 / 2 : ℚ) ≤ 1 ∧
    SparseImplicitSurfaceScalarField._hatFunc (1 / 2 : ℚ) +
      SparseImplicitSurfaceScalarField._hatFunc ((1 / 2 : ℚ) - 1) = 1 ∧
    (|(-3 : ℚ)| ≥ 1 ∧ SparseImplicitSurfaceScalarField._hatFunc (-3 : ℚ) = 0) :=
  ⟨by norm_num, by norm_num,
    (C19_hat_kernel_closed_form (1 / 2 : ℚ)).2.2.2.2.2.2 (by norm_num) (by norm_num),
    by norm_num,
    (C19_hat_kernel_closed_form (-3 : ℚ)).2.2.2.2.2.1 (by norm_num)⟩

/-! ## Fresh storage of the pressure system -/

namespace Array3d

variable {T : Type}

/-- The fill constructor with non-negative dimensions whose element count is a
defined `int`: it succeeds with a valid grid of the requested dimensions, no
sentinel, and the fill value at every in-range index. -/
theorem newFill_spec (mem : Nat → T) (junk : T) (i j k : Int) (fillValue : T)
    (hi : 0 ≤ i) (hj : 0 ≤ j) (hk : 0 ≤ k)
    (hij : i * j ≤ INT_MAX) (hijk : i * j * k ≤ INT_MAX) :
    (newFill mem junk i j k fillValue).1 = .ok () ∧
    (newFill mem junk i j k fillValue).2.Valid ∧
    (newFill mem junk i j k fillValue).2.width = i ∧
    (newFill mem junk i j k fillValue).2.height = j ∧
    (newFill mem junk i j k fillValue).2.depth = k ∧
    (newFill mem junk i j k fillValue).2._isOutOfRangeValueSet = false ∧
    ∀ a b c : Int, (newFill mem junk i j k fillValue).2.InBounds a b c →
      ((newFill mem junk i j k fillValue).2.operatorCall a b c).1 = .ok fillValue := by
  have hn := numElements_of_nonneg hi hj hk hij hijk
  have h0 : 0 ≤ i * j * k := mul_nonneg (mul_nonneg hi hj) hk
  obtain ⟨G1, hG1⟩ : ∃ G1 : Array3d T, G1 =
      { fresh junk with width := i, height := j, depth := k,
                        _grid := (List.range (i * j * k).toNat).map mem } := ⟨_, rfl⟩
  have hinit : _initializeGrid mem
      { fresh junk with width := i, height := j, depth := k } = (.ok (), G1) := by
    unfold _initializeGrid
    dsimp only
    rw [hn]
    dsimp only
    rw [if_neg (by omega), hG1]
  have hw : G1.width = i := by rw [hG1]
  have hh : G1.height = j := by rw [hG1]
  have hd : G1.depth = k := by rw [hG1]
  have hf : G1._isOutOfRangeValueSet = false := by rw [hG1]; rfl
  have hG1v : G1.Valid := by
    unfold Valid
    rw [hw, hh, hd, hn, hG1]
    dsimp only
    rw [List.length_map, List.length_range, Int.toNat_of_nonneg h0]
  have hnew : newFill mem junk i j k fillValue = G1.fill fillValue := by
    unfold newFill
    rw [hinit]
  rw [hnew]
  obtain ⟨hok, ⟨hw1, hh1, hd1⟩, _, hflag, _, _⟩ := fill_spec G1 fillValue hG1v
  refine ⟨hok, valid_fill G1 fillValue hG1v, by rw [hw1, hw], by rw [hh1, hh],
    by rw [hd1, hd], by rw [hflag, hf], ?_⟩
  intro a b c hb
  refine operatorCall_fill G1 fillValue hG1v a b c ?_
  unfold InBounds at hb ⊢
  rw [hw1, hh1, hd1] at hb
  exact hb

end Array3d

namespace FluidSimulation

/-- A member initialised from the temporary `Array3d<float>(i, j, k, 0.0f)`,
with or without copy elision, is a valid grid of dimensions `(i,j,k)` without
sentinel that reads the fill value at every in-range cell. -/
theorem fromTemporary_spec {F : Type} (elide : Bool) (mem : Nat → F) (junk : F)
    (i j k : Int) (fillValue : F)
    (hi : 0 ≤ i) (hj : 0 ≤ j) (hk : 0 ≤ k)
    (hij : i * j ≤ INT_MAX) (hijk : i * j * k ≤ INT_MAX) :
    ∃ g : Array3d F, fromTemporary elide mem junk i j k fillValue = .ok g ∧
      g.Valid ∧ g.width = i ∧ g.height = j ∧ g.depth = k ∧
      g._isOutOfRangeValueSet = false ∧
      ∀ a b c : Int, 0 ≤ a → a < i → 0 ≤ b → b < j → 0 ≤ c → c < k →
        (g.operatorCall a b c).1 = .ok fillValue := by
  obtain ⟨hok, hv, hw, hh, hd, hflag, hread⟩ :=
    Array3d.newFill_spec mem junk i j k fillValue hi hj hk hij hijk
  unfold fromTemporary
  cases hres : Array3d.newFill mem junk i j k fillValue with
  | mk r tmp =>
    rw [hres] at hok hv hw hh hd hflag hread
    dsimp only at hok hv hw hh hd hflag hread
    subst hok
    dsimp only
    cases elide with
    | true =>
      refine ⟨tmp, rfl, hv, hw, hh, hd, hflag, ?_⟩
      intro a b c a0 a1 b0 b1 c0 c1
      refine hread a b c ?_
      unfold Array3d.InBounds
      rw [hw, hh, hd]
      exact ⟨a0, a1, b0, b1, c0, c1⟩
    | false =>
      obtain ⟨cok, cv, cw, ch, cd, cflag, _, cread⟩ := Array3d.copy_spec mem junk tmp hv
      cases hcopy : Array3d.copy mem junk tmp with
      | mk r1 member =>
        rw [hcopy] at cok cv cw ch cd cflag cread
        dsimp only at cok cv cw ch cd cflag cread
        subst cok
        refine ⟨member, rfl, cv, by rw [cw, hw], by rw [ch, hh], by rw [cd, hd],
          by rw [cflag, hflag], ?_⟩
        intro a b c a0 a1 b0 b1 c0 c1
        rw [cread a b c]
        refine hread a b c ?_
        unfold Array3d.InBounds
        rw [hw, hh, hd]
        exact ⟨a0, a1, b0, b1, c0, c1⟩

end FluidSimulation

/-- C21 amended: for non-negative `i`, `j`, `k` whose element count is a defined
`int` (`i*j <= INT_MAX` and `i*j*k <= INT_MAX`),
`MatrixCoefficients(i,j,k)` is constructed with `width`, `height`, `depth` equal
to `(i,j,k)` and four grids `diag`, `plusi`, `plusj`, `plusk` of dimensions
`(i,j,k)` that read `0` at every in-range cell; `VectorCoefficients(i,j,k)`
likewise with its grid `vector`. This holds with and without copy elision. -/
theorem C21_fresh_coefficients_zero {F : Type} [Zero F] (elide : Bool) (mem : Nat → F)
    (junk : F) (i j k : Int) (hi : 0 ≤ i) (hj : 0 ≤ j) (hk : 0 ≤ k)
    (hij : i * j ≤ INT_MAX) (hijk : i * j * k ≤ INT_MAX) :
    (∃ m : FluidSimulation.MatrixCoefficients F,
      FluidSimulation.MatrixCoefficients.new elide mem junk i j k = .ok m ∧
      m.width = i ∧ m.height = j ∧ m.depth = k ∧
      FluidSimulation.IsZeroGrid i j k m.diag ∧ FluidSimulation.IsZeroGrid i j k m.plusi ∧
      FluidSimulation.IsZeroGrid i j k m.plusj ∧ FluidSimulation.IsZeroGrid i j k m.plusk) ∧
    (∃ v : FluidSimulation.VectorCoefficients F,
      FluidSimulation.VectorCoefficients.new elide mem junk i j k = .ok v ∧
      v.width = i ∧ v.height = j ∧ v.depth = k ∧
      FluidSimulation.IsZeroGrid i j k v.vector) := by
  obtain ⟨g, hg, _, hw, hh, hd, _, hread⟩ :=
    FluidSimulation.fromTemporary_spec elide mem junk i j k (0 : F) hi hj hk hij hijk
  have hz : FluidSimulation.IsZeroGrid i j k g := ⟨hw, hh, hd, hread⟩
  constructor
  · refine ⟨{ diag := g, plusi := g, plusj := g, plusk := g,
              width := i, height := j, depth := k }, ?_, rfl, rfl, rfl, hz, hz, hz, hz⟩
    unfold FluidSimulation.MatrixCoefficients.new
    rw [hg]
    rfl
  · refine ⟨{ vector := g, width := i, height := j, depth := k }, ?_, rfl, rfl, rfl, hz⟩
    unfold FluidSimulation.VectorCoefficients.new
    rw [hg]
    rfl

theorem C21_fresh_coefficients_zero_witness :
    (∃ m : FluidSimulation.MatrixCoefficients ℚ,
      FluidSimulation.MatrixCoefficients.new false (fun n => (n : ℚ)) 7 2 1 2 = .ok m ∧
      m.width = 2 ∧ m.height = 1 ∧ m.depth = 2 ∧
      FluidSimulation.IsZeroGrid 2 1 2 m.diag ∧ FluidSimulation.IsZeroGrid 2 1 2 m.plusi ∧
      FluidSimulation.IsZeroGrid 2 1 2 m.plusj ∧ FluidSimulation.IsZeroGrid 2 1 2 m.plusk) ∧
    (∃ v : FluidSimulation.VectorCoefficients ℚ,
      FluidSimulation.VectorCoefficients.new false (fun n => (n : ℚ)) 7 2 1 2 = .ok v ∧
      v.width = 2 ∧ v.height = 1 ∧ v.depth = 2 ∧
      FluidSimulation.IsZeroGrid 2 1 2 v.vector) :=
  C21_fresh_coefficients_zero false (fun n => (n : ℚ)) 7 2 1 2 (by decide) (by decide)
    (by decide) (by decide) (by decide)

/-! ## LogFile -/

namespace LogFile

/-- The message-only overload forwards the indent `0`, whatever its argument. -/
theorem log_eq_logValue_zero (l : LogFile) (str : String) (indentLevel : Int) :
    l.log str indentLevel = l.logValue str "" 0 := rfl

end LogFile

/-- C22 fails on the code: on an empty log, `log("x", 1)` leaves the buffer
`"x\n"`, the text of `log("x", "", 0)`, whereas `log("x", "", 1)` leaves the
tab-indented `"\tx\n"`; the console echo differs in the same way. -/
theorem C22_log_drops_indent :
    (sampleLog.log "x" 1).getString = "x\n" ∧
    (sampleLog.logValue "x" "" 1).getString = "\tx\n" ∧
    (sampleLog.log "x" 1).getString ≠ (sampleLog.logValue "x" "" 1).getString ∧
    (sampleLog.log "x" 1).cout = "x\n" ∧
    (sampleLog.logValue "x" "" 1).cout = "\tx\n" ∧
    sampleLog.log "x" 1 = sampleLog.logValue "x" "" 0 := by
  refine ⟨by decide, by decide, by decide, by decide, by decide, rfl⟩

/-- C23: each `GridIndex` overload of `operator()`, `set`, `add`, `getPointer`
and `isIndexInRange` has the same outcome, faults included, and leaves the same
grid state as the integer overload called with `(g.i, g.j, g.k)`; both compute
the same buffer offset, and the public `isIndexInRange` returns what the private
`_isIndexInRange` used by the accessors returns. -/
theorem C23_gridindex_overloads_agree {T : Type} [Add T] (g : Array3d T) (x : GridIndex)
    (v : T) (i j k : Int) :
    g.operatorCallG x = g.operatorCall x.i x.j x.k ∧
    g.setG x v = g.set x.i x.j x.k v ∧
    g.addG x v = g.add x.i x.j x.k v ∧
    g.getPointerG x = g.getPointer x.i x.j x.k ∧
    g.isIndexInRangeG x = g.isIndexInRange x.i x.j x.k ∧
    g._getFlatIndexG x = g._getFlatIndex x.i x.j x.k ∧
    g.isIndexInRange i j k = (g._isIndexInRange i j k, g) ∧
    g.isIndexInRangeG x = (g._isIndexInRange x.i x.j x.k, g) :=
  ⟨rfl, rfl, rfl, rfl, rfl, rfl, rfl, rfl⟩

/-! ## Allocation by `_initializeGrid` and the calls that follow it -/

namespace Array3d

variable {T : Type}

theorem sameDims_initializeGrid (mem : Nat → T) (g : Array3d T) :
    g.sameDims (g._initializeGrid mem).2 := by
  unfold _initializeGrid
  split
  · exact sameDims_refl g
  · split
    · exact sameDims_refl g
    · exact ⟨rfl, rfl, rfl⟩

theorem length_setG (g : Array3d T) (x : GridIndex) (v : T) :
    (g.setG x v).2._grid.length = g._grid.length := by
  unfold setG
  split
  · rfl
  · split
    · exact List.length_set _ _ _
    · rfl

theorem length_addG [Add T] (g : Array3d T) (x : GridIndex) (v : T) :
    (g.addG x v).2._grid.length = g._grid.length := by
  unfold addG
  split
  · rfl
  · split
    · exact List.length_set _ _ _
    · rfl

theorem valid_setG (g : Array3d T) (x : GridIndex) (v : T) (hv : g.Valid) :
    (g.setG x v).2.Valid :=
  valid_of_sameDims hv (sameDims_setG g x v) (length_setG g x v)

theorem valid_addG [Add T] (g : Array3d T) (x : GridIndex) (v : T) (hv : g.Valid) :
    (g.addG x v).2.Valid :=
  valid_of_sameDims hv (sameDims_addG g x v) (length_addG g x v)

theorem valid_setCells (g : Array3d T) (cells : List GridIndex) (v : T) (hv : g.Valid) :
    (g.setCells cells v).2.Valid := by
  unfold setCells
  refine forRange_preserves (fun s => s.Valid) _ ?_ _ 0 g hv
  intro idx s hs
  dsimp only
  split
  · exact valid_setG s _ v hs
  · exact hs

theorem valid_apply [Add T] (m : Mutation T) (g : Array3d T) (hv : g.Valid) :
    (m.apply g).2.Valid := by
  cases m with
  | set i j k value => exact valid_set g i j k value hv
  | setG x value => exact valid_setG g x value hv
  | setCells cells value => exact valid_setCells g cells value hv
  | add i j k value => exact valid_add g i j k value hv
  | addG x value => exact valid_addG g x value hv
  | fill value => exact valid_fill g value hv
  | setOutOfRangeValue val => exact hv
  | setOutOfRangeValueNoArg => exact hv

theorem sameDims_apply [Add T] (m : Mutation T) (g : Array3d T) :
    g.sameDims (m.apply g).2 := by
  cases m with
  | set i j k value => exact sameDims_set g i j k value
  | setG x value => exact sameDims_setG g x value
  | setCells cells value => exact sameDims_setCells g cells value
  | add i j k value => exact sameDims_add g i j k value
  | addG x value => exact sameDims_addG g x value
  | fill value => exact sameDims_fill g value
  | setOutOfRangeValue val => exact ⟨rfl, rfl, rfl⟩
  | setOutOfRangeValueNoArg => exact ⟨rfl, rfl, rfl⟩

/-- Whatever sequence of writing calls follows, the grid stays valid and keeps
its dimensions. -/
theorem valid_applyAll [Add T] (ms : List (Mutation T)) :
    ∀ g : Array3d T, g.Valid → (applyAll ms g).Valid ∧ g.sameDims (applyAll ms g) := by
  induction ms with
  | nil =>
    intro g hv
    exact ⟨hv, sameDims_refl g⟩
  | cons m rest ih =>
    intro g hv
    have h := ih (m.apply g).2 (valid_apply m g hv)
    exact ⟨h.1, sameDims_trans (sameDims_apply m g) h.2⟩

/-- The allocation `new T[width*height*depth]` on an object in any prior state
whose dimensions are positive and whose element count fits in `int`: it
succeeds and the new buffer has exactly `width*height*depth` elements. -/
theorem initializeGrid_of_fits (mem : Nat → T) (g0 : Array3d T)
    (hw : 0 < g0.width) (hh : 0 < g0.height) (hd : 0 < g0.depth)
    (hmax : g0.width * g0.height * g0.depth ≤ INT_MAX) :
    (g0._initializeGrid mem).1 = .ok () ∧ (g0._initializeGrid mem).2.Valid ∧
      ((g0._initializeGrid mem).2._grid.length : Int) =
        g0.width * g0.height * g0.depth := by
  have hwh : 0 ≤ g0.width * g0.height := mul_nonneg (le_of_lt hw) (le_of_lt hh)
  have hij : g0.width * g0.height ≤ INT_MAX :=
    le_trans (le_mul_of_one_le_right hwh (by omega)) hmax
  have hn := numElements_of_nonneg (le_of_lt hw) (le_of_lt hh) (le_of_lt hd) hij hmax
  have h0 : 0 ≤ g0.width * g0.height * g0.depth := mul_nonneg hwh (le_of_lt hd)
  have hok : (g0._initializeGrid mem).1 = .ok () := by
    unfold _initializeGrid
    rw [hn]
    dsimp only
    rw [if_neg (by omega)]
  have hv := valid_initializeGrid mem g0 hok
  refine ⟨hok, hv, ?_⟩
  obtain ⟨sw, sh, sd⟩ := sameDims_initializeGrid mem g0
  have hlen := (numElements_eq_some hv).1
  rw [sw, sh, sd] at hlen
  exact hlen

end Array3d

/-- C6 as stated fails: `Array3d<int>(65536, 65536, 1)` has positive dimensions,
but its element count `width*height*depth` leaves the range of `int`; the
object owns no element, `getNumElements()` has no defined value, and the
in-range index `(0,0,0)` has offset `0`, which is not below the number of
allocated elements, so its read leaves the buffer. -/
theorem C6_overflowing_dimensions_offset_outside :
    0 < (Array3d.new (fun _ => (0 : Int)) 0 65536 65536 1).2.width ∧
    0 < (Array3d.new (fun _ => (0 : Int)) 0 65536 65536 1).2.height ∧
    0 < (Array3d.new (fun _ => (0 : Int)) 0 65536 65536 1).2.depth ∧
    (Array3d.new (fun _ => (0 : Int)) 0 65536 65536 1).2.InBounds 0 0 0 ∧
    (Array3d.new (fun _ => (0 : Int)) 0 65536 65536 1).2._grid.length = 0 ∧
    ¬ ((Array3d.new (fun _ => (0 : Int)) 0 65536 65536 1).2._getFlatIndex 0 0 0 <
        (Array3d.new (fun _ => (0 : Int)) 0 65536 65536 1).2._grid.length) ∧
    (Array3d.new (fun _ => (0 : Int)) 0 65536 65536 1).1 = .error .signedOverflow ∧
    (Array3d.new (fun _ => (0 : Int)) 0 65536 65536 1).2.getNumElements.1 =
      .error .signedOverflow ∧
    ((Array3d.new (fun _ => (0 : Int)) 0 65536 65536 1).2.operatorCall 0 0 0).1 =
      .error .outOfBuffer := by
  refine ⟨by decide, by decide, by decide, by decide, rfl, by decide, rfl, rfl, rfl⟩

/-- C6 amended: for an object in any prior state with an in-range index `(i,j,k)`
(so with positive dimensions) and `width*height*depth <= INT_MAX`,
`_initializeGrid` succeeds and allocates exactly `width*height*depth` elements;
on that grid, and on the grid after any sequence of `set`, `add`, `fill` and
`setOutOfRangeValue` calls, the dimensions are unchanged, the buffer still has
`width*height*depth = getNumElements()` elements, the offset `_getFlatIndex`
computes is exactly `i + width*(j + height*k)` (no wrap-around of the unsigned
arithmetic) and is strictly below the number of allocated elements, and the
in-range read and write succeed inside the buffer. -/
theorem C6_flat_index_below_allocation {T : Type} [Add T] (g0 : Array3d T) (mem : Nat → T)
    (ms : List (Array3d.Mutation T)) (i j k : Int)
    (hmax : g0.width * g0.height * g0.depth ≤ INT_MAX) (hb : g0.InBounds i j k) :
    (0 < g0.width ∧ 0 < g0.height ∧ 0 < g0.depth) ∧
    (g0._initializeGrid mem).1 = .ok () ∧
    ((g0._initializeGrid mem).2._grid.length : Int) = g0.width * g0.height * g0.depth ∧
    ∃ g : Array3d T, g = Array3d.applyAll ms (g0._initializeGrid mem).2 ∧
      g.width = g0.width ∧ g.height = g0.height ∧ g.depth = g0.depth ∧
      (g._grid.length : Int) = g0.width * g0.height * g0.depth ∧
      g.getNumElements = (.ok (g0.width * g0.height * g0.depth), g) ∧
      (g._getFlatIndex i j k : Int) = i + g0.width * (j + g0.height * k) ∧
      g._getFlatIndexG ⟨i, j, k⟩ = g._getFlatIndex i j k ∧
      g._getFlatIndex i j k < g._grid.length ∧
      (∃ v, g.operatorCall i j k = (.ok v, g)) ∧
      (∀ v, (g.set i j k v).1 = .ok ()) := by
  have hpos : 0 < g0.width ∧ 0 < g0.height ∧ 0 < g0.depth := by
    obtain ⟨a1, a2, b1, b2, c1, c2⟩ := hb
    exact ⟨by omega, by omega, by omega⟩
  obtain ⟨hok, hv1, hlen1⟩ :=
    Array3d.initializeGrid_of_fits mem g0 hpos.1 hpos.2.1 hpos.2.2 hmax
  obtain ⟨hvg, hdg⟩ := Array3d.valid_applyAll ms (g0._initializeGrid mem).2 hv1
  obtain ⟨w1, h1, d1⟩ := Array3d.sameDims_initializeGrid mem g0
  obtain ⟨w2, h2, d2⟩ := hdg
  refine ⟨hpos, hok, hlen1, _, rfl, w2.trans w1, h2.trans h1, d2.trans d1, ?_⟩
  obtain ⟨G, hG⟩ : ∃ G : Array3d T, G = Array3d.applyAll ms (g0._initializeGrid mem).2 :=
    ⟨_, rfl⟩
  rw [← hG] at hvg w2 h2 d2 ⊢
  have hw : G.width = g0.width := w2.trans w1
  have hh : G.height = g0.height := h2.trans h1
  have hd : G.depth = g0.depth := d2.trans d1
  have hbG : G.InBounds i j k := by
    unfold Array3d.InBounds
    rw [hw, hh, hd]
    exact hb
  obtain ⟨hflat, hlt, hlen⟩ := Array3d.flatIndex_of_inBounds G i j k hvg hbG
  rw [hw, hh] at hflat
  rw [hw, hh, hd] at hlen
  have hnum : Array3d.numElements G.width G.height G.depth = some (G._grid.length : Int) :=
    hvg
  refine ⟨hlen, ?_, hflat, rfl, hlt, ?_, ?_⟩
  · unfold Array3d.getNumElements
    rw [hnum, hlen]
  · obtain ⟨v, _, hread⟩ := Array3d.operatorCall_of_inBounds G i j k hvg hbG
    exact ⟨v, hread⟩
  · intro v
    rw [Array3d.set_of_inBounds G i j k v hvg hbG]

theorem C6_flat_index_below_allocation_witness :
    sampleUnallocated.width * sampleUnallocated.height * sampleUnallocated.depth ≤ INT_MAX ∧
    sampleUnallocated.InBounds 1 1 1 ∧
    ((sampleUnallocated._initializeGrid (fun n => (n : Int))).2._grid.length : Int) =
      sampleUnallocated.width * sampleUnallocated.height * sampleUnallocated.depth ∧
    ∃ g : Array3d Int,
      g = Array3d.applyAll [.set 0 0 0 5, .fill 3, .add 1 1 1 2]
        (sampleUnallocated._initializeGrid (fun n => (n : Int))).2 ∧
      g.width = sampleUnallocated.width ∧ g.height = sampleUnallocated.height ∧
      g.depth = sampleUnallocated.depth ∧
      (g._grid.length : Int) =
        sampleUnallocated.width * sampleUnallocated.height * sampleUnallocated.depth ∧
      g.getNumElements =
        (.ok (sampleUnallocated.width * sampleUnallocated.height * sampleUnallocated.depth), g) ∧
      (g._getFlatIndex 1 1 1 : Int) =
        1 + sampleUnallocated.width * (1 + sampleUnallocated.height * 1) ∧
      g._getFlatIndexG ⟨1, 1, 1⟩ = g._getFlatIndex 1 1 1 ∧
      g._getFlatIndex 1 1 1 < g._grid.length ∧
      (∃ v, g.operatorCall 1 1 1 = (.ok v, g)) ∧
      (∀ v, (g.set 1 1 1 v).1 = .ok ()) :=
  ⟨by decide, by decide,
    (C6_flat_index_below_allocation sampleUnallocated (fun n => (n : Int))
      [.set 0 0 0 5, .fill 3, .add 1 1 1 2] 1 1 1 (by decide) (by decide)).2.2.1,
    (C6_flat_index_below_allocation sampleUnallocated (fun n => (n : Int))
      [.set 0 0 0 5, .fill 3, .add 1 1 1 2] 1 1 1 (by decide) (by decide)).2.2.2⟩

/-- C15 as stated fails: `Array3d<int>(65536, 65536, 1, 9)` has non-negative
dimensions, but its element count leaves the range of `int`; the constructor
does not complete, no element is allocated, and the read at the in-range index
`(0,0,0)` does not return the fill value. -/
theorem C15_overflowing_fill_constructor :
    (Array3d.newFill (fun _ => (0 : Int)) 0 65536 65536 1 9).1 = .error .signedOverflow ∧
    (Array3d.newFill (fun _ => (0 : Int)) 0 65536 65536 1 9).2.InBounds 0 0 0 ∧
    ((Array3d.newFill (fun _ => (0 : Int)) 0 65536 65536 1 9).2.operatorCall 0 0 0).1 =
      .error .outOfBuffer ∧
    ¬ (∀ a b c : Int, 0 ≤ a → a < 65536 → 0 ≤ b → b < 65536 → 0 ≤ c → c < 1 →
        ((Array3d.newFill (fun _ => (0 : Int)) 0 65536 65536 1 9).2.operatorCall a b c).1 = .ok 9) := by
  refine ⟨rfl, by decide, rfl, ?_⟩
  intro h
  have h0 := h 0 0 0 (by decide) (by decide) (by decide) (by decide) (by decide) (by decide)
  have h1 : ((Array3d.newFill (fun _ => (0 : Int)) 0 65536 65536 1 9).2.operatorCall 0 0 0).1 =
      .error .outOfBuffer := rfl
  rw [h1] at h0
  exact absurd h0 (by simp)

/-- C21 as stated fails: for the non-negative sizes `(65536, 65536, 1)` the element
count leaves the range of `int`, and neither `MatrixCoefficients(i,j,k)` nor
`VectorCoefficients(i,j,k)` yields an object whose grids read `0`. -/
theorem C21_overflowing_coefficients :
    FluidSimulation.MatrixCoefficients.new false (fun _ => (0 : Int)) 0 65536 65536 1 =
      .error .signedOverflow ∧
    FluidSimulation.VectorCoefficients.new false (fun _ => (0 : Int)) 0 65536 65536 1 =
      .error .signedOverflow ∧
    ¬ (∃ m : FluidSimulation.MatrixCoefficients Int,
        FluidSimulation.MatrixCoefficients.new false (fun _ => (0 : Int)) 0 65536 65536 1 =
          .ok m ∧ FluidSimulation.IsZeroGrid 65536 65536 1 m.diag) ∧
    ¬ (∃ v : FluidSimulation.VectorCoefficients Int,
        FluidSimulation.VectorCoefficients.new false (fun _ => (0 : Int)) 0 65536 65536 1 =
          .ok v ∧ FluidSimulation.IsZeroGrid 65536 65536 1 v.vector) := by
  have hm : FluidSimulation.MatrixCoefficients.new false (fun _ => (0 : Int)) 0 65536 65536 1 =
      .error .signedOverflow := rfl
  have hvec : FluidSimulation.VectorCoefficients.new false (fun _ => (0 : Int)) 0 65536 65536 1 =
      .error .signedOverflow := rfl
  refine ⟨hm, hvec, ?_, ?_⟩
  · rintro ⟨m, h, _⟩
    rw [hm] at h
    exact absurd h (by simp)
  · rintro ⟨v, h, _⟩
    rw [hvec] at h
    exact absurd h (by simp)

end GridFluidSim3D
